import Mathlib

/-!
# Tsugie pipeline — verification of the spec's claims against the source

Shallow embedding of the Tsugie event-data pipeline (fusion, content
enrichment, scoring, obfuscated spatial export) and proofs settling the
frozen claims C1–C10.

Conventions of the embedding:
* bytes are `Nat`s below 256; byte strings are `List Nat`;
* Python `str` is Lean `String` (both sequences of unicode code points;
  Python `len` = `String.length`, Python string order = code-point order);
* machine floats that the scripts parse from decimal text are modelled as
  exact rationals `ℚ` (the scripts only compare, round and print them);
* `zlib.compress`/`zlib.decompress` are opaque collaborators passed in as
  function parameters (their inverse law is taken as a hypothesis where a
  claim needs it);
* functions that raise are embedded in `Except String`/`Option`.
-/

namespace Tsugie

/-! ## Bytes, hex, UTF-8 -/

/-- Lower-case hex digit for a value `< 16`. -/
def hexDigit (n : Nat) : Char :=
  if n < 10 then Char.ofNat (48 + n) else Char.ofNat (87 + n)

/-- Two-digit lower-case hex of one byte. -/
def byteHex (b : Nat) : List Char :=
  [hexDigit (b / 16 % 16), hexDigit (b % 16)]

/-- Lower-case hex string of a byte string (Python `bytes.hex()` /
`hashlib.…hexdigest()` output format). -/
def bytesToHex (bs : List Nat) : String :=
  ⟨(bs.map byteHex).flatten⟩

/-- UTF-8 encoding of one unicode code point (Python `str.encode("utf-8")`
for one character). -/
def utf8Char (c : Char) : List Nat :=
  let n := c.toNat
  if n < 0x80 then [n]
  else if n < 0x800 then [0xC0 ||| (n >>> 6), 0x80 ||| (n &&& 0x3F)]
  else if n < 0x10000 then
    [0xE0 ||| (n >>> 12), 0x80 ||| ((n >>> 6) &&& 0x3F), 0x80 ||| (n &&& 0x3F)]
  else
    [0xF0 ||| (n >>> 18), 0x80 ||| ((n >>> 12) &&& 0x3F),
     0x80 ||| ((n >>> 6) &&& 0x3F), 0x80 ||| (n &&& 0x3F)]

/-- UTF-8 bytes of a string (Python `s.encode("utf-8")`). -/
def utf8 (s : String) : List Nat :=
  (s.data.map utf8Char).flatten

/-! ## SHA-256 (FIPS 180-4), executable, over byte lists -/

namespace Hash

/-- Truncate to a 32-bit word. -/
def w32 (n : Nat) : Nat := n % 4294967296

/-- 32-bit right rotation. -/
def rotr (k n : Nat) : Nat := w32 ((n >>> k) ||| (n <<< (32 - k)))

/-- 32-bit left rotation. -/
def rotl (k n : Nat) : Nat := w32 ((n <<< k) ||| (n >>> (32 - k)))

/-- Big-endian 4-byte encoding of a 32-bit word. -/
def be32 (n : Nat) : List Nat :=
  [n >>> 24 % 256, n >>> 16 % 256, n >>> 8 % 256, n % 256]

/-- Big-endian 8-byte encoding of a 64-bit length. -/
def be64 (n : Nat) : List Nat := be32 (n >>> 32) ++ be32 n

/-- One big-endian word from four bytes. -/
def word (b0 b1 b2 b3 : Nat) : Nat := ((b0 * 256 + b1) * 256 + b2) * 256 + b3

/-- Big-endian 32-bit words of a byte list (length a multiple of 4). -/
def toWords : List Nat → List Nat
  | b0 :: b1 :: b2 :: b3 :: rest => word b0 b1 b2 b3 :: toWords rest
  | _ => []

/-- Split a byte list into 64-byte blocks (structural recursion on a fuel
that the wrapper sets to the list length, which each step strictly
consumes). -/
def chunk64Aux : Nat → List Nat → List (List Nat)
  | 0, _ => []
  | _, [] => []
  | fuel + 1, b :: l => (b :: l).take 64 :: chunk64Aux fuel ((b :: l).drop 64)

/-- Split a byte list into 64-byte blocks. -/
def chunk64 (l : List Nat) : List (List Nat) := chunk64Aux l.length l

/-- SHA padding: `0x80`, zeros, 8-byte big-endian bit length. -/
def shaPad (msg : List Nat) : List Nat :=
  let L := msg.length
  msg ++ [0x80] ++ List.replicate ((64 - (L + 9) % 64) % 64) 0 ++ be64 (8 * L)

/-- The eight working variables of the SHA-2 compression function. -/
structure St where
  a : Nat
  b : Nat
  c : Nat
  d : Nat
  e : Nat
  f : Nat
  g : Nat
  h : Nat

/-- SHA-256 round constants. -/
def K256 : List Nat :=
  [
   1116352408, 1899447441, 3049323471, 3921009573,
   961987163, 1508970993, 2453635748, 2870763221,
   3624381080, 310598401, 607225278, 1426881987,
   1925078388, 2162078206, 2614888103, 3248222580,
   3835390401, 4022224774, 264347078, 604807628,
   770255983, 1249150122, 1555081692, 1996064986,
   2554220882, 2821834349, 2952996808, 3210313671,
   3336571891, 3584528711, 113926993, 338241895,
   666307205, 773529912, 1294757372, 1396182291,
   1695183700, 1986661051, 2177026350, 2456956037,
   2730485921, 2820302411, 3259730800, 3345764771,
   3516065817, 3600352804, 4094571909, 275423344,
   430227734, 506948616, 659060556, 883997877,
   958139571, 1322822218, 1537002063, 1747873779,
   1955562222, 2024104815, 2227730452, 2361852424,
   2428436474, 2756734187, 3204031479, 3329325298]

/-- SHA-256 initial hash value. -/
def IV256 : List Nat :=
  [
   1779033703, 3144134277, 1013904242, 2773480762,
   1359893119, 2600822924, 528734635, 1541459225]

/-- σ₀ message-schedule function. -/
def sSig0 (x : Nat) : Nat := (rotr 7 x) ^^^ (rotr 18 x) ^^^ (x >>> 3)

/-- σ₁ message-schedule function. -/
def sSig1 (x : Nat) : Nat := (rotr 17 x) ^^^ (rotr 19 x) ^^^ (x >>> 10)

/-- Σ₀ round function. -/
def bSig0 (x : Nat) : Nat := (rotr 2 x) ^^^ (rotr 13 x) ^^^ (rotr 22 x)

/-- Σ₁ round function. -/
def bSig1 (x : Nat) : Nat := (rotr 6 x) ^^^ (rotr 11 x) ^^^ (rotr 25 x)

/-- Extend the 16 block words to the 64-word SHA-256 message schedule. -/
def schedule256 (ws : Array Nat) : Array Nat :=
  (List.range 48).foldl
    (fun arr i =>
      let t := i + 16
      arr.push (w32 (sSig1 (arr.getD (t - 2) 0) + arr.getD (t - 7) 0 +
        sSig0 (arr.getD (t - 15) 0) + arr.getD (t - 16) 0)))
    ws

/-- One SHA-256 round. -/
def round256 (st : St) (k w : Nat) : St :=
  let ch := (st.e &&& st.f) ^^^ ((st.e ^^^ 0xffffffff) &&& st.g)
  let maj := (st.a &&& st.b) ^^^ (st.a &&& st.c) ^^^ (st.b &&& st.c)
  let t1 := w32 (st.h + bSig1 st.e + ch + k + w)
  let t2 := w32 (bSig0 st.a + maj)
  { a := w32 (t1 + t2), b := st.a, c := st.b, d := st.c,
    e := w32 (st.d + t1), f := st.e, g := st.f, h := st.g }

/-- SHA-256 compression of one 64-byte block into the running hash. -/
def compress256 (hv : List Nat) (block : List Nat) : List Nat :=
  let ws := schedule256 (toWords block).toArray
  let st0 : St :=
    { a := hv.getD 0 0, b := hv.getD 1 0, c := hv.getD 2 0, d := hv.getD 3 0,
      e := hv.getD 4 0, f := hv.getD 5 0, g := hv.getD 6 0, h := hv.getD 7 0 }
  let stN := (List.range 64).foldl
    (fun st i => round256 st (K256.getD i 0) (ws.getD i 0)) st0
  [w32 (hv.getD 0 0 + stN.a), w32 (hv.getD 1 0 + stN.b),
   w32 (hv.getD 2 0 + stN.c), w32 (hv.getD 3 0 + stN.d),
   w32 (hv.getD 4 0 + stN.e), w32 (hv.getD 5 0 + stN.f),
   w32 (hv.getD 6 0 + stN.g), w32 (hv.getD 7 0 + stN.h)]

/-- SHA-256 digest (32 bytes) of a byte string. -/
def sha256 (msg : List Nat) : List Nat :=
  (((chunk64 (shaPad msg)).foldl compress256 IV256).map be32).flatten

/-- SHA-1 round constants by round quarter. -/
def K1 (i : Nat) : Nat :=
  if i < 20 then 0x5a827999
  else if i < 40 then 0x6ed9eba1
  else if i < 60 then 0x8f1bbcdc
  else 0xca62c1d6

/-- SHA-1 round boolean function by round quarter. -/
def F1 (i b c d : Nat) : Nat :=
  if i < 20 then (b &&& c) ||| ((b ^^^ 0xffffffff) &&& d)
  else if i < 40 then b ^^^ c ^^^ d
  else if i < 60 then (b &&& c) ||| (b &&& d) ||| (c &&& d)
  else b ^^^ c ^^^ d

/-- Extend the 16 block words to the 80-word SHA-1 message schedule. -/
def schedule1 (ws : Array Nat) : Array Nat :=
  (List.range 64).foldl
    (fun arr i =>
      let t := i + 16
      arr.push (rotl 1 ((arr.getD (t - 3) 0) ^^^ (arr.getD (t - 8) 0) ^^^
        (arr.getD (t - 14) 0) ^^^ (arr.getD (t - 16) 0))))
    ws

/-- SHA-1 compression of one 64-byte block into the running hash. -/
def compress1 (hv : List Nat) (block : List Nat) : List Nat :=
  let ws := schedule1 (toWords block).toArray
  let fin := (List.range 80).foldl
    (fun (st : Nat × Nat × Nat × Nat × Nat) i =>
      let (a, b, c, d, e) := st
      let t := w32 (rotl 5 a + F1 i b c d + e + K1 i + ws.getD i 0)
      (t, a, rotl 30 b, c, d))
    (hv.getD 0 0, hv.getD 1 0, hv.getD 2 0, hv.getD 3 0, hv.getD 4 0)
  let (a, b, c, d, e) := fin
  [w32 (hv.getD 0 0 + a), w32 (hv.getD 1 0 + b), w32 (hv.getD 2 0 + c),
   w32 (hv.getD 3 0 + d), w32 (hv.getD 4 0 + e)]

/-- SHA-1 initial hash value. -/
def IV1 : List Nat :=
  [0x67452301, 0xefcdab89, 0x98badcfe, 0x10325476, 0xc3d2e1f0]

/-- SHA-1 digest (20 bytes) of a byte string. -/
def sha1 (msg : List Nat) : List Nat :=
  (((chunk64 (shaPad msg)).foldl compress1 IV1).map be32).flatten

end Hash

/-- `hashlib.sha256(bytes).hexdigest()`. -/
def sha256hex (msg : List Nat) : String := bytesToHex (Hash.sha256 msg)


/-! ## Python string helpers shared by the scripts -/

namespace Py

/-- Characters matched by Python's `\s` / `str.strip()` (unicode whitespace). -/
def isSpace (c : Char) : Bool :=
  c.toNat ∈ [0x09, 0x0A, 0x0B, 0x0C, 0x0D, 0x1C, 0x1D, 0x1E, 0x1F, 0x20,
    0x85, 0xA0, 0x1680, 0x2000, 0x2001, 0x2002, 0x2003, 0x2004, 0x2005,
    0x2006, 0x2007, 0x2008, 0x2009, 0x200A, 0x2028, 0x2029, 0x202F,
    0x205F, 0x3000]

/-- Python `str.strip()`. -/
def strip (s : String) : String :=
  ⟨(s.data.dropWhile isSpace).reverse.dropWhile isSpace |>.reverse⟩

theorem length_dropWhile_le (p : Char → Bool) (l : List Char) :
    (l.dropWhile p).length ≤ l.length := by
  induction l with
  | nil => simp [List.dropWhile]
  | cons c rest ih =>
    simp only [List.dropWhile]
    split
    · exact Nat.le_succ_of_le ih
    · simp

theorem length_takeWhile_le (p : Char → Bool) (l : List Char) :
    (l.takeWhile p).length ≤ l.length := by
  induction l with
  | nil => simp [List.takeWhile]
  | cons c rest ih =>
    simp only [List.takeWhile]
    split
    · simpa using ih
    · simp

/-- Whitespace-collapse: `re.sub(r"\s+", " ", s)` on a char list
(structural recursion on a fuel the wrapper sets to the list length). -/
def collapseWsAux : Nat → List Char → List Char
  | 0, _ => []
  | _, [] => []
  | fuel + 1, c :: rest =>
    if isSpace c then ' ' :: collapseWsAux fuel (rest.dropWhile isSpace)
    else c :: collapseWsAux fuel rest

/-- Whitespace-collapse: `re.sub(r"\s+", " ", s)` on a char list. -/
def collapseWs (l : List Char) : List Char := collapseWsAux l.length l

/-- `re.sub(r"\s+", " ", s).strip()` — the whitespace normalisation the
scripts call `clean_text` / `_clean` (HTML-entity unescaping, where the
source applies it first, is threaded as an explicit parameter `ue`). -/
def cleanWs (s : String) : String :=
  strip ⟨collapseWs s.data⟩

/-- Python `str.lower()` (ASCII case mapping; the scripts lower-case
URLs, status tags and Japanese text, where non-ASCII case is inert). -/
def lower (s : String) : String := ⟨s.data.map Char.toLower⟩

/-- Stable insertion of a string into a sorted list (keeps existing
elements first on ties). -/
def sortedInsert (x : String) : List String → List String
  | [] => [x]
  | y :: rest => if y ≤ x then y :: sortedInsert x rest else x :: y :: rest

/-- Python `sorted` on strings: a stable sort by code-point order (any
stable sort computes the same list, so insertion sort stands in for
Timsort). -/
def pySorted (l : List String) : List String :=
  l.foldr sortedInsert []

/-- Python truthiness of a string. -/
def truthy (s : String) : Bool := s ≠ ""

/-- ASCII digit test (`\d` over the data the scripts see). -/
def isDigit (c : Char) : Bool := '0' ≤ c ∧ c ≤ '9'

/-- Digit value. -/
def digitVal (c : Char) : Nat := c.toNat - 48

/-- Decimal value of a digit run. -/
def digitsVal (l : List Char) : Nat := l.foldl (fun a c => a * 10 + digitVal c) 0

/-- `re.findall(r"\d[\d,]*", text)`: the maximal runs of digits-and-commas
that start with a digit, in order. -/
def digitRunsAux : Nat → List Char → List (List Char)
  | 0, _ => []
  | _, [] => []
  | fuel + 1, c :: rest =>
    if isDigit c then
      let run := rest.takeWhile (fun x => isDigit x || x = ',')
      (c :: run) :: digitRunsAux fuel (rest.drop run.length)
    else digitRunsAux fuel rest

def digitRuns (l : List Char) : List (List Char) := digitRunsAux l.length l

/-- `parse_number` (identical in `export_ios_seed.py` and
`enrich_event_scores.py`): concatenate all digit/comma runs, drop the
commas, read the result as an integer; `None` when no digit occurs. -/
def parse_number (text : String) : Option Nat :=
  let chunks := digitRuns text.data
  if chunks.isEmpty then none
  else some (digitsVal ((chunks.flatten).filter (· ≠ ',')))

/-- Python's `in` on strings: substring containment. -/
def contains (hay needle : String) : Bool :=
  decide (needle.data <:+: hay.data)

/-- `str.endswith`. -/
def endsWith (s suffix : String) : Bool :=
  decide (suffix.data <:+ s.data)

end Py


/-! ## Export stage (`scripts/export_ios_seed.py`) — codec and geohash -/

namespace Export

/-- Default obfuscation key seed (`DEFAULT_KEY`). -/
def DEFAULT_KEY : String := "tsugie-ios-seed-v1"

/-- `GEOHASH_ALPHABET` from the source. -/
def GEOHASH_ALPHABET : String := "0123456789bcdefghjkmnpqrstuvwxyz"

/-- `xor_obfuscate(data, key_seed)`: byte `idx` is XORed with
`sha256(key_seed utf-8)[idx mod 32]` and the positional mix
`(idx * 131 + 17) mod 256`. -/
def xor_obfuscate (data : List Nat) (key_seed : String) : List Nat :=
  let key := Hash.sha256 (utf8 key_seed)
  data.enum.map fun p =>
    let mix := (p.1 * 131 + 17) % 256
    p.2 ^^^ key.getD (p.1 % key.length) 0 ^^^ mix

theorem length_xor_obfuscate (data : List Nat) (seed : String) :
    (xor_obfuscate data seed).length = data.length := by
  simp [xor_obfuscate]

theorem getElem_xor_obfuscate (data : List Nat) (seed : String) (i : Nat)
    (h : i < data.length) :
    (xor_obfuscate data seed).getD i 0 =
      (data.getD i 0) ^^^
        (Hash.sha256 (utf8 seed)).getD (i % (Hash.sha256 (utf8 seed)).length) 0 ^^^
        ((i * 131 + 17) % 256) := by
  have hlen : i < (xor_obfuscate data seed).length := by
    simpa [length_xor_obfuscate] using h
  rw [List.getD_eq_getElem _ _ hlen, List.getD_eq_getElem _ _ h]
  simp [xor_obfuscate]

private theorem xor_double_cancel (x k m : Nat) :
    ((x ^^^ k ^^^ m) ^^^ k) ^^^ m = x := by
  rw [Nat.xor_assoc (x ^^^ k) m k, Nat.xor_comm m k, ← Nat.xor_assoc (x ^^^ k) k m,
    Nat.xor_assoc x k k, Nat.xor_self, Nat.xor_zero, Nat.xor_assoc, Nat.xor_self,
    Nat.xor_zero]

theorem xor_obfuscate_involutive (data : List Nat) (seed : String) :
    xor_obfuscate (xor_obfuscate data seed) seed = data := by
  apply List.ext_getElem
  · simp [length_xor_obfuscate]
  · intro i h1 h2
    have h : i < data.length := h2
    have e1 := getElem_xor_obfuscate data seed i h
    have e2 := getElem_xor_obfuscate (xor_obfuscate data seed) seed i
      (by simpa [length_xor_obfuscate] using h)
    rw [List.getD_eq_getElem _ _ h1] at e2
    rw [e1] at e2
    rw [e2, xor_double_cancel, List.getD_eq_getElem _ _ h]

end Export

namespace Export

/-- The five bit weights `(16, 8, 4, 2, 1)` used by `geohash_encode`. -/
def bits5 (bit : Nat) : Nat := [16, 8, 4, 2, 1].getD bit 0

/-- Character of the geohash alphabet at index `ch`. -/
def geohashChar (ch : Nat) : Char := GEOHASH_ALPHABET.data.getD ch ' '

/-- The `while len(out) < precision` loop of `geohash_encode`, with the
number of characters still to emit (`rem`) as the recursion measure and
coordinates/interval bounds as exact rationals.  The shared loop tail
(`bit` advance / character emission) is written out in each of the four
comparison branches. -/
def geohashLoop (lat lng : ℚ) (latLo latHi lngLo lngHi : ℚ) (isLng : Bool)
    (bit ch : Nat) (rem : Nat) : List Char :=
  if rem = 0 then []
  else if isLng then
    let mid := (lngLo + lngHi) / 2
    if lng ≥ mid then
      if bit < 4 then
        geohashLoop lat lng latLo latHi mid lngHi (!isLng) (bit + 1) (ch ||| bits5 bit) rem
      else
        geohashChar (ch ||| bits5 bit) ::
          geohashLoop lat lng latLo latHi mid lngHi (!isLng) 0 0 (rem - 1)
    else
      if bit < 4 then
        geohashLoop lat lng latLo latHi lngLo mid (!isLng) (bit + 1) ch rem
      else
        geohashChar ch :: geohashLoop lat lng latLo latHi lngLo mid (!isLng) 0 0 (rem - 1)
  else
    let mid := (latLo + latHi) / 2
    if lat ≥ mid then
      if bit < 4 then
        geohashLoop lat lng mid latHi lngLo lngHi (!isLng) (bit + 1) (ch ||| bits5 bit) rem
      else
        geohashChar (ch ||| bits5 bit) ::
          geohashLoop lat lng mid latHi lngLo lngHi (!isLng) 0 0 (rem - 1)
    else
      if bit < 4 then
        geohashLoop lat lng latLo mid lngLo lngHi (!isLng) (bit + 1) ch rem
      else
        geohashChar ch :: geohashLoop lat lng latLo mid lngLo lngHi (!isLng) 0 0 (rem - 1)
termination_by (rem, 4 - bit)
decreasing_by
  all_goals first
    | exact Prod.Lex.right rem (by omega)
    | exact Prod.Lex.left _ _ (by omega)

/-- `geohash_encode(lat, lng, precision)` from the source. -/
def geohash_encode (lat lng : ℚ) (precision : Nat) : String :=
  ⟨geohashLoop lat lng (-90) 90 (-180) 180 true 0 0 precision⟩

end Export

namespace Export

/-- Spec-side reference for C9 (defined from the claim's words, to be
compared with the source's `geohash_encode`): the standard geohash bit
stream — alternate halving of the longitude and latitude intervals,
longitude first, emitting `true` when the coordinate lies in the upper
half. -/
def geohashBits (lat lng : ℚ) : (latLo latHi lngLo lngHi : ℚ) → Bool → Nat → List Bool
  | _, _, _, _, _, 0 => []
  | latLo, latHi, lngLo, lngHi, true, n + 1 =>
    let mid := (lngLo + lngHi) / 2
    if lng ≥ mid then true :: geohashBits lat lng latLo latHi mid lngHi false n
    else false :: geohashBits lat lng latLo latHi lngLo mid false n
  | latLo, latHi, lngLo, lngHi, false, n + 1 =>
    let mid := (latLo + latHi) / 2
    if lat ≥ mid then true :: geohashBits lat lng mid latHi lngLo lngHi true n
    else false :: geohashBits lat lng latLo mid lngLo lngHi true n

/-- Value of one five-bit chunk, most significant bit first. -/
def chunkVal (l : List Bool) : Nat :=
  l.foldl (fun a b => 2 * a + cond b 1 0) 0

/-- Split a bit stream into five-bit chunks (fuelled structural
recursion; the wrapper passes the length). -/
def chunks5Aux : Nat → List Bool → List (List Bool)
  | 0, _ => []
  | _, [] => []
  | fuel + 1, b :: l => (b :: l).take 5 :: chunks5Aux fuel ((b :: l).drop 5)

/-- Split a bit stream into five-bit chunks. -/
def chunks5 (l : List Bool) : List (List Bool) :=
  chunks5Aux l.length l

/-- Spec-side base-32 digit map over the standard alphabet. -/
def geohashCharSpec (ch : Nat) : Char :=
  "0123456789bcdefghjkmnpqrstuvwxyz".data.getD ch ' '

/-- Spec-side standard geohash encoder (claim C9's words). -/
def geohash_spec (lat lng : ℚ) (precision : Nat) : String :=
  ⟨(chunks5 (geohashBits lat lng (-90) 90 (-180) 180 true (5 * precision))).map
    fun c => geohashCharSpec (chunkVal c)⟩



end Export

namespace Export

theorem chunks5Aux_nil (f : Nat) : chunks5Aux f [] = [] := by
  cases f <;> rfl

theorem chunks5Aux_eq_chunks5 : ∀ (f : Nat) (l : List Bool), l.length ≤ f →
    chunks5Aux f l = chunks5 l := by
  intro f
  induction f using Nat.strong_induction_on with
  | _ f ih =>
    intro l h
    cases l with
    | nil => cases f <;> simp [chunks5, chunks5Aux]
    | cons b rest =>
      cases f with
      | zero => simp at h
      | succ f =>
        have hlen : rest.length + 1 ≤ f + 1 := by simpa using h
        have hr : (List.drop 5 (b :: rest)).length ≤ f := by
          simp only [List.length_drop, List.length_cons]
          omega
        show List.take 5 (b :: rest) :: chunks5Aux f (List.drop 5 (b :: rest)) =
          chunks5 (b :: rest)
        rw [ih f (Nat.lt_succ_self f) _ hr]
        show List.take 5 (b :: rest) :: chunks5 (List.drop 5 (b :: rest)) =
          List.take 5 (b :: rest) :: chunks5Aux rest.length (List.drop 5 (b :: rest))
        rw [ih rest.length (by omega) _
          (by simp only [List.length_drop, List.length_cons]; omega)]

set_option maxHeartbeats 1000000 in
theorem geohashLoop_eq_spec (lat lng : ℚ) (p : Nat) :
    ∀ (latLo latHi lngLo lngHi : ℚ) (isLng : Bool),
    geohashLoop lat lng latLo latHi lngLo lngHi isLng 0 0 p =
      (chunks5 (geohashBits lat lng latLo latHi lngLo lngHi isLng (5 * p))).map
        (fun c => geohashCharSpec (chunkVal c)) := by
  induction p with
  | zero =>
    intro latLo latHi lngLo lngHi isLng
    rw [geohashLoop]
    simp [geohashBits, chunks5, chunks5Aux]
  | succ n ih =>
    intro latLo latHi lngLo lngHi isLng
    rw [show 5 * (n + 1) = (5 * n + 4) + 1 from by omega]
    have hne : (n + 1 : Nat) ≠ 0 := Nat.succ_ne_zero n
    cases isLng <;>
      ( rw [geohashLoop, if_neg hne]
        simp only [Bool.false_eq_true, if_false, if_true, geohashBits, Bool.not_false,
          Bool.not_true]
        split <;>
          ( rw [if_pos (by omega : (0:Nat) < 4), geohashLoop, if_neg hne]
            simp only [Bool.false_eq_true, if_false, if_true,
              show (5 * n + 4 : Nat) = (5 * n + 3) + 1 from by omega, geohashBits,
              Bool.not_false, Bool.not_true]
            split <;>
              ( rw [if_pos (by omega : (1:Nat) < 4), geohashLoop, if_neg hne]
                simp only [Bool.false_eq_true, if_false, if_true,
                  show (5 * n + 3 : Nat) = (5 * n + 2) + 1 from by omega, geohashBits,
                  Bool.not_false, Bool.not_true]
                split <;>
                  ( rw [if_pos (by omega : (2:Nat) < 4), geohashLoop, if_neg hne]
                    simp only [Bool.false_eq_true, if_false, if_true,
                      show (5 * n + 2 : Nat) = (5 * n + 1) + 1 from by omega, geohashBits,
                      Bool.not_false, Bool.not_true]
                    split <;>
                      ( rw [if_pos (by omega : (3:Nat) < 4), geohashLoop, if_neg hne]
                        simp only [Bool.false_eq_true, if_false, if_true,
                          geohashBits, Bool.not_false, Bool.not_true]
                        split <;>
                          ( rw [if_neg (by omega : ¬ (4:Nat) < 4)]
                            simp only [chunks5, List.length_cons, chunks5Aux,
                              List.take_succ_cons, List.take_zero,
                              List.drop_succ_cons, List.drop_zero, List.map_cons,
                              Nat.add_sub_cancel]
                            rw [ih, chunks5Aux_eq_chunks5 _ _ (by omega)]
                            simp [geohashChar, geohashCharSpec, GEOHASH_ALPHABET,
                              chunkVal, bits5] ) ) ) ) ) )

theorem geohashBits_zero (lat lng latLo latHi lngLo lngHi : ℚ) (isLng : Bool) :
    geohashBits lat lng latLo latHi lngLo lngHi isLng 0 = [] := by
  cases isLng <;> rfl

theorem geohashBits_lng_ge (lat lng latLo latHi lngLo lngHi : ℚ) (n : Nat)
    (hn : n ≠ 0) (h : lng ≥ (lngLo + lngHi) / 2) :
    geohashBits lat lng latLo latHi lngLo lngHi true n =
      true :: geohashBits lat lng latLo latHi ((lngLo + lngHi) / 2) lngHi false (n - 1) := by
  cases n with
  | zero => exact absurd rfl hn
  | succ m => simp [geohashBits, h]

theorem geohashBits_lng_lt (lat lng latLo latHi lngLo lngHi : ℚ) (n : Nat)
    (hn : n ≠ 0) (h : ¬ lng ≥ (lngLo + lngHi) / 2) :
    geohashBits lat lng latLo latHi lngLo lngHi true n =
      false :: geohashBits lat lng latLo latHi lngLo ((lngLo + lngHi) / 2) false (n - 1) := by
  cases n with
  | zero => exact absurd rfl hn
  | succ m => simp [geohashBits, h]

theorem geohashBits_lat_ge (lat lng latLo latHi lngLo lngHi : ℚ) (n : Nat)
    (hn : n ≠ 0) (h : lat ≥ (latLo + latHi) / 2) :
    geohashBits lat lng latLo latHi lngLo lngHi false n =
      true :: geohashBits lat lng ((latLo + latHi) / 2) latHi lngLo lngHi true (n - 1) := by
  cases n with
  | zero => exact absurd rfl hn
  | succ m => simp [geohashBits, h]

theorem geohashBits_lat_lt (lat lng latLo latHi lngLo lngHi : ℚ) (n : Nat)
    (hn : n ≠ 0) (h : ¬ lat ≥ (latLo + latHi) / 2) :
    geohashBits lat lng latLo latHi lngLo lngHi false n =
      false :: geohashBits lat lng latLo ((latLo + latHi) / 2) lngLo lngHi true (n - 1) := by
  cases n with
  | zero => exact absurd rfl hn
  | succ m => simp [geohashBits, h]

theorem chunks5_nil : chunks5 [] = [] := rfl

theorem chunks5_cons (b : Bool) (l : List Bool) :
    chunks5 (b :: l) = (b :: l).take 5 :: chunks5 ((b :: l).drop 5) := by
  show chunks5Aux (l.length + 1) (b :: l) = _
  show (b :: l).take 5 :: chunks5Aux l.length ((b :: l).drop 5) = _
  rw [chunks5Aux_eq_chunks5 _ _ (by simp only [List.length_drop, List.length_cons]; omega)]

set_option maxHeartbeats 4000000 in
/-- C9: the geohash encoder implements the standard geohash algorithm —
longitude-first bit interleaving over the base-32 alphabet
`0123456789bcdefghjkmnpqrstuvwxyz` (it agrees with the spec-side reference
encoder `geohash_spec` everywhere) — and encoding latitude 35.681236,
longitude 139.767125 at precision 5 yields `"xn76u"`. -/
theorem C9_geohash_correct :
    (∀ (lat lng : ℚ) (precision : Nat),
      geohash_encode lat lng precision = geohash_spec lat lng precision) ∧
    geohash_encode (35.681236 : ℚ) (139.767125 : ℚ) 5 = "xn76u" := by
  have hmain : ∀ (lat lng : ℚ) (precision : Nat),
      geohash_encode lat lng precision = geohash_spec lat lng precision := by
    intro lat lng precision
    unfold geohash_encode geohash_spec
    rw [geohashLoop_eq_spec]
  refine ⟨hmain, ?_⟩
  rw [hmain]
  unfold geohash_spec
  norm_num [geohashBits_lng_ge, geohashBits_lng_lt, geohashBits_lat_ge,
    geohashBits_lat_lt, geohashBits_zero]
  norm_num [chunks5_cons, chunks5_nil, chunkVal, geohashCharSpec]

end Export

namespace Hash

theorem length_compress256 (hv block : List Nat) : (compress256 hv block).length = 8 := rfl

theorem length_foldl_compress256 (blocks : List (List Nat)) (acc : List Nat)
    (h : acc.length = 8) : (blocks.foldl compress256 acc).length = 8 := by
  induction blocks generalizing acc with
  | nil => simpa using h
  | cons b rest ih => exact ih _ (length_compress256 acc b)

theorem length_sha256 (msg : List Nat) : (sha256 msg).length = 32 := by
  unfold sha256
  have h8 := length_foldl_compress256 (chunk64 (shaPad msg)) IV256 rfl
  generalize (chunk64 (shaPad msg)).foldl compress256 IV256 = hv at h8
  match hv, h8 with
  | [a, b, c, d, e, f, g, h], _ => rfl

end Hash

namespace Export

/-- C2: byte `i` of `xor_obfuscate(raw, seed)` is
`raw[i] XOR key[i mod 32] XOR ((i × 131 + 17) mod 256)`, where `key` is the
32-byte SHA-256 digest of the UTF-8 key seed, and the transform is its own
inverse on every byte string. -/
theorem C2_xor_obfuscate_spec :
    (∀ (seed : String), (Hash.sha256 (utf8 seed)).length = 32) ∧
    (∀ (data : List Nat) (seed : String) (i : Nat), i < data.length →
      (xor_obfuscate data seed).getD i 0 =
        (data.getD i 0) ^^^ (Hash.sha256 (utf8 seed)).getD (i % 32) 0 ^^^
          ((i * 131 + 17) % 256)) ∧
    (∀ (data : List Nat) (seed : String),
      xor_obfuscate (xor_obfuscate data seed) seed = data) := by
  refine ⟨fun seed => Hash.length_sha256 _, fun data seed i h => ?_,
    xor_obfuscate_involutive⟩
  rw [getElem_xor_obfuscate data seed i h, Hash.length_sha256]

/-- Witness for C2 at a concrete input: index 1 of a three-byte input. -/
theorem C2_xor_obfuscate_spec_witness :
    (1 < ([1, 2, 3] : List Nat).length) ∧
    ((xor_obfuscate [1, 2, 3] "k").getD 1 0 =
      (([1, 2, 3] : List Nat).getD 1 0) ^^^
        (Hash.sha256 (utf8 "k")).getD (1 % 32) 0 ^^^ ((1 * 131 + 17) % 256)) ∧
    xor_obfuscate (xor_obfuscate [1, 2, 3] "k") "k" = [1, 2, 3] :=
  ⟨by decide, C2_xor_obfuscate_spec.2.1 [1, 2, 3] "k" 1 (by decide),
    C2_xor_obfuscate_spec.2.2 [1, 2, 3] "k"⟩

end Export

namespace Export

/-- A JSON value as the export script sees the fused/content/score rows.
Numbers are integers or short decimal literals `m × 10^(-e)` (the shape
produced by `json.loads` on the pipeline's own files; the binary-float
repr subtleties of arbitrary doubles are outside the modelled domain). -/
inductive Jv where
  | jnull : Jv
  | jbool : Bool → Jv
  | jint : Int → Jv
  | jdec : Int → Nat → Jv
  | jstr : String → Jv
  | jarr : List Jv → Jv
  | jobj : List (String × Jv) → Jv

/-- JSON string escaping as `json.dumps(..., ensure_ascii=False)` does it:
only the two mandatory characters and control characters are escaped. -/
def jsonEscapeChar (c : Char) : List Char :=
  if c = '"' then ['\\', '"']
  else if c = '\\' then ['\\', '\\']
  else if c = '\n' then ['\\', 'n']
  else if c = '\r' then ['\\', 'r']
  else if c = '\t' then ['\\', 't']
  else if c.toNat = 8 then ['\\', 'b']
  else if c.toNat = 12 then ['\\', 'f']
  else if c.toNat < 0x20 then '\\' :: 'u' :: '0' :: '0' :: byteHex c.toNat
  else [c]

/-- A JSON string literal. -/
def jsonStr (s : String) : String :=
  "\"" ++ ⟨(s.data.map jsonEscapeChar).flatten⟩ ++ "\""

/-- Decimal rendering of `m × 10^(-e)` (matches `repr` of a float parsed
from that short decimal literal). -/
def decRepr (m : Int) (e : Nat) : String :=
  let a := m.natAbs
  let ip := a / 10 ^ e
  let fp := a % 10 ^ e
  let fpStr := toString fp
  let pad := String.mk (List.replicate (e - fpStr.length) '0')
  (if m < 0 then "-" else "") ++ toString ip ++ "." ++ pad ++ fpStr

/-- Comma-join. -/
def joinComma (l : List String) : String :=
  match l with
  | [] => ""
  | x :: rest => rest.foldl (fun acc y => acc ++ "," ++ y) x

mutual

/-- `json.dumps(v, ensure_ascii=False, separators=(",", ":"))`. -/
def Jv.dump : Jv → String
  | .jnull => "null"
  | .jbool b => if b then "true" else "false"
  | .jint n => toString n
  | .jdec m e => decRepr m e
  | .jstr s => jsonStr s
  | .jarr l => "[" ++ joinComma (Jv.dumpList l) ++ "]"
  | .jobj l => "\x7b" ++ joinComma (Jv.dumpObj l) ++ "\x7d"
termination_by structural v => v

def Jv.dumpList : List Jv → List String
  | [] => []
  | v :: rest => Jv.dump v :: Jv.dumpList rest
termination_by structural l => l

def Jv.dumpObj : List (String × Jv) → List String
  | [] => []
  | (k, v) :: rest => (jsonStr k ++ ":" ++ Jv.dump v) :: Jv.dumpObj rest
termination_by structural l => l

end

/-- A fused/content/score row as a JSON object (key/value list in file
order, as Python dicts preserve insertion order). -/
abbrev Row := List (String × Jv)

/-- `row.get(key)` (first match; `none` for an absent key). -/
def Row.get (row : Row) (key : String) : Option Jv :=
  (row.find? (fun p => p.1 = key)).map Prod.snd

/-- One export entry, with the fields of the dict `build_entry` returns in
their insertion order.  `image_local_abs`/`image_local_rel` model the
`_image_local_abs`/`_image_local_rel` scratch keys that
`attach_image_payload` pops before serialisation, and the four
`image_payload_*`/`content_image_local_path` fields model the keys that
the same stage appends (so they come last in the serialised object). -/
structure Entry where
  category : String
  canonical_id : String
  ios_place_id : String
  distance_meters : Nat
  scale_score : Int
  heat_score : Int
  surprise_score : Int
  hint : String
  normalized_start_date : Option String
  normalized_end_date : Option String
  normalized_start_time : Option String
  normalized_end_time : Option String
  geohash : Option String
  content_description : Option String
  content_one_liner : Option String
  content_description_zh : Option String
  content_one_liner_zh : Option String
  content_description_en : Option String
  content_one_liner_en : Option String
  content_source_urls : List String
  content_description_source_url : Option String
  content_image_source_url : Option String
  image_local_abs : Option String
  image_local_rel : Option String
  record : Row
  image_payload_offset : Option Nat := none
  image_payload_length : Option Nat := none
  image_payload_sha256 : Option String := none
  content_image_local_path : Option String := none

/-- An optional string as a JSON value. -/
def jOptStr : Option String → Jv
  | none => Jv.jnull
  | some s => Jv.jstr s

/-- The serialised JSON object of one entry at payload-build time (after
`attach_image_payload` popped the two scratch keys and, for entries with
an image, appended the image-reference keys). -/
def Entry.toJv (e : Entry) : Jv :=
  Jv.jobj (
    [("category", Jv.jstr e.category),
     ("canonical_id", Jv.jstr e.canonical_id),
     ("ios_place_id", Jv.jstr e.ios_place_id),
     ("distance_meters", Jv.jdec (e.distance_meters * 10) 1),
     ("scale_score", Jv.jint e.scale_score),
     ("heat_score", Jv.jint e.heat_score),
     ("surprise_score", Jv.jint e.surprise_score),
     ("hint", Jv.jstr e.hint),
     ("normalized_start_date", jOptStr e.normalized_start_date),
     ("normalized_end_date", jOptStr e.normalized_end_date),
     ("normalized_start_time", jOptStr e.normalized_start_time),
     ("normalized_end_time", jOptStr e.normalized_end_time),
     ("geohash", jOptStr e.geohash),
     ("content_description", jOptStr e.content_description),
     ("content_one_liner", jOptStr e.content_one_liner),
     ("content_description_zh", jOptStr e.content_description_zh),
     ("content_one_liner_zh", jOptStr e.content_one_liner_zh),
     ("content_description_en", jOptStr e.content_description_en),
     ("content_one_liner_en", jOptStr e.content_one_liner_en),
     ("content_source_urls", Jv.jarr (e.content_source_urls.map Jv.jstr)),
     ("content_description_source_url", jOptStr e.content_description_source_url),
     ("content_image_source_url", jOptStr e.content_image_source_url),
     ("record", Jv.jobj e.record)] ++
    (match e.image_payload_offset, e.image_payload_length, e.image_payload_sha256 with
     | some off, some len, some sha =>
       [("image_payload_offset", Jv.jint off),
        ("image_payload_length", Jv.jint len),
        ("image_payload_sha256", Jv.jstr sha),
        ("content_image_local_path", jOptStr e.content_image_local_path)]
     | _, _, _ => []))

/-- `json.dumps(entries, ensure_ascii=False, separators=(",", ":"))`
encoded to UTF-8, as in `build_payload_bytes`. -/
def entriesJsonBytes (entries : List Entry) : List Nat :=
  utf8 ("[" ++ joinComma (entries.map (fun e => (Entry.toJv e).dump)) ++ "]")

end Export

namespace Export

/-- `build_payload_bytes(entries, key_seed)`: minified JSON → zlib
(parameter `compress`) → XOR obfuscation; SHA-256 checksum of the raw
JSON bytes; decode-back self-check that raises (here: `Except.error`)
when the round trip does not restore the raw bytes. -/
def build_payload_bytes (compress decompress : List Nat → List Nat)
    (entries : List Entry) (key_seed : String) : Except String (List Nat × String) :=
  let raw := entriesJsonBytes entries
  let compressed := compress raw
  let obfuscated := xor_obfuscate compressed key_seed
  let checksum := sha256hex raw
  let decoded := decompress (xor_obfuscate obfuscated key_seed)
  if decoded = raw then Except.ok (obfuscated, checksum)
  else Except.error "payload codec self-check failed"

/-- `build_binary_payload_bytes(raw, key_seed)` — the image-chunk codec,
same shape without the JSON serialisation. -/
def build_binary_payload_bytes (compress decompress : List Nat → List Nat)
    (raw : List Nat) (key_seed : String) : Except String (List Nat × String) :=
  let compressed := compress raw
  let obfuscated := xor_obfuscate compressed key_seed
  let checksum := sha256hex raw
  let decoded := decompress (xor_obfuscate obfuscated key_seed)
  if decoded = raw then Except.ok (obfuscated, checksum)
  else Except.error "binary payload codec self-check failed"

/-- `entry.get("geohash") or "_unknown"` as the bucket key. -/
def bucketKeyOf (e : Entry) : String :=
  match e.geohash with
  | some g => if g = "" then "_unknown" else g
  | none => "_unknown"

/-- Stable ascending insertion by sort key (Python `list.sort(key=…)` /
`sorted(…)` compute the same list as any stable sort). -/
def insertByKey (key : Entry → String) (x : Entry) : List Entry → List Entry
  | [] => [x]
  | y :: rest => if key y ≤ key x then y :: insertByKey key x rest else x :: y :: rest

/-- `rows.sort(key=lambda x: str(x.get("ios_place_id", "")))`. -/
def sortByPlaceId (rows : List Entry) : List Entry :=
  rows.foldr (insertByKey (fun e => e.ios_place_id)) []

/-- First-occurrence deduplication of a string list (fuelled structural
recursion; the wrapper passes the length). -/
def dedupStrAux : Nat → List String → List String
  | 0, _ => []
  | _, [] => []
  | fuel + 1, x :: rest =>
    if x ∈ rest then x :: dedupStrAux fuel (rest.filter (· ≠ x))
    else x :: dedupStrAux fuel rest

/-- First-occurrence deduplication of a string list. -/
def dedupStr (l : List String) : List String := dedupStrAux l.length l

/-- Per-bucket metadata recorded in `payload_buckets`. -/
structure BucketMeta where
  record_count : Nat
  payload_sha256 : String
  payload_offset : Nat
  payload_length : Nat

/-- The `for key in sorted(grouped.keys())` loop of
`build_spatial_payload`: `offset` is the running payload length. -/
def spatialGo (compress decompress : List Nat → List Nat) (key_seed : String)
    (entries : List Entry) :
    List String → Nat → Except String (List (String × BucketMeta) × List Nat)
  | [], _ => Except.ok ([], [])
  | k :: rest, offset => do
    let rows := sortByPlaceId (entries.filter (fun e => bucketKeyOf e = k))
    let (chunk, checksum) ← build_payload_bytes compress decompress rows key_seed
    let (meta, payload) ← spatialGo compress decompress key_seed entries rest
      (offset + chunk.length)
    Except.ok ((k, ⟨rows.length, checksum, offset, chunk.length⟩) :: meta,
      chunk ++ payload)

/-- `build_spatial_payload(entries, key_seed)`: group entries by geohash
bucket, emit buckets in sorted key order, each serialised, compressed and
obfuscated, with `(record_count, payload_sha256, payload_offset,
payload_length)` metadata. -/
def build_spatial_payload (compress decompress : List Nat → List Nat)
    (entries : List Entry) (key_seed : String) :
    Except String (List (String × BucketMeta) × List Nat) :=
  spatialGo compress decompress key_seed entries
    (Py.pySorted (dedupStr (entries.map bucketKeyOf))) 0

end Export

namespace Export

theorem build_binary_ok (compress decompress : List Nat → List Nat)
    (raw : List Nat) (seed : String)
    (h : decompress (compress raw) = raw) :
    build_binary_payload_bytes compress decompress raw seed =
      Except.ok (xor_obfuscate (compress raw) seed, sha256hex raw) := by
  simp [build_binary_payload_bytes, xor_obfuscate_involutive, h]

theorem build_payload_ok (compress decompress : List Nat → List Nat)
    (rows : List Entry) (seed : String)
    (h : decompress (compress (entriesJsonBytes rows)) = entriesJsonBytes rows) :
    build_payload_bytes compress decompress rows seed =
      Except.ok (xor_obfuscate (compress (entriesJsonBytes rows)) seed,
        sha256hex (entriesJsonBytes rows)) := by
  simp [build_payload_bytes, xor_obfuscate_involutive, h]

/-- The bucket rows a key collects in `build_spatial_payload`. -/
def bucketRows (entries : List Entry) (k : String) : List Entry :=
  sortByPlaceId (entries.filter (fun e => bucketKeyOf e = k))

theorem spatialGo_spec (compress decompress : List Nat → List Nat)
    (hzrt : ∀ b, decompress (compress b) = b) (seed : String)
    (entries : List Entry) :
    ∀ (keys : List String) (offset : Nat),
    ∃ meta payload,
      spatialGo compress decompress seed entries keys offset =
        Except.ok (meta, payload) ∧
      ∀ p ∈ meta,
        offset ≤ p.2.payload_offset ∧
        (payload.drop (p.2.payload_offset - offset)).take p.2.payload_length =
          xor_obfuscate (compress (entriesJsonBytes (bucketRows entries p.1))) seed ∧
        p.2.payload_sha256 = sha256hex (entriesJsonBytes (bucketRows entries p.1)) ∧
        p.2.record_count = (bucketRows entries p.1).length := by
  intro keys
  induction keys with
  | nil =>
    intro offset
    exact ⟨[], [], rfl, by simp⟩
  | cons k rest ih =>
    intro offset
    obtain ⟨meta', payload', hgo, hmeta⟩ :=
      ih (offset + (xor_obfuscate (compress (entriesJsonBytes (bucketRows entries k))) seed).length)
    refine ⟨(k, ⟨(bucketRows entries k).length,
        sha256hex (entriesJsonBytes (bucketRows entries k)), offset,
        (xor_obfuscate (compress (entriesJsonBytes (bucketRows entries k))) seed).length⟩) :: meta',
      xor_obfuscate (compress (entriesJsonBytes (bucketRows entries k))) seed ++ payload',
      ?_, ?_⟩
    · simp only [spatialGo, bind, Except.bind,
        build_payload_ok compress decompress _ seed (hzrt _)]
      rw [show sortByPlaceId (entries.filter (fun e => bucketKeyOf e = k)) =
        bucketRows entries k from rfl]
      rw [hgo]
    · intro p hp
      rcases List.mem_cons.mp hp with hp | hp
      · subst hp
        refine ⟨Nat.le_refl offset, ?_, rfl, rfl⟩
        simp only [Nat.sub_self, List.drop_zero]
        exact List.take_left _ _
      · obtain ⟨hoff, hslice, hsha, hcount⟩ := hmeta p hp
        set chunk := xor_obfuscate (compress (entriesJsonBytes (bucketRows entries k))) seed
        refine ⟨by omega, ?_, hsha, hcount⟩
        have harith : p.2.payload_offset - offset =
            chunk.length + (p.2.payload_offset - (offset + chunk.length)) := by omega
        rw [harith, List.drop_append, hslice]

/-- C1: with `zlib_decompress ∘ zlib_compress = id` (zlib's contract, the
two functions passed in as parameters), every spatial bucket chunk and
every image chunk XOR-unobfuscates and decompresses back to exactly the
raw bytes (the bucket's minified UTF-8 JSON, or the raw image bytes), the
recorded `payload_sha256` is the SHA-256 hex digest of those raw bytes —
and whenever the round trip fails on some input, the chunk builder
returns an error (`RuntimeError` in the source) instead of emitting. -/
theorem C1_payload_roundtrip_selfcheck :
    (∀ (compress decompress : List Nat → List Nat),
      (∀ b, decompress (compress b) = b) →
      ∀ (raw : List Nat) (seed : String),
      ∃ chunk,
        build_binary_payload_bytes compress decompress raw seed =
          Except.ok (chunk, sha256hex raw) ∧
        decompress (xor_obfuscate chunk seed) = raw) ∧
    (∀ (compress decompress : List Nat → List Nat),
      (∀ b, decompress (compress b) = b) →
      ∀ (entries : List Entry) (seed : String),
      ∃ meta payload,
        build_spatial_payload compress decompress entries seed =
          Except.ok (meta, payload) ∧
        ∀ p ∈ meta,
          (payload.drop p.2.payload_offset).take p.2.payload_length =
            xor_obfuscate (compress (entriesJsonBytes (bucketRows entries p.1))) seed ∧
          decompress (xor_obfuscate
            ((payload.drop p.2.payload_offset).take p.2.payload_length) seed) =
            entriesJsonBytes (bucketRows entries p.1) ∧
          p.2.payload_sha256 = sha256hex (entriesJsonBytes (bucketRows entries p.1)) ∧
          p.2.record_count = (bucketRows entries p.1).length) ∧
    (∀ (compress decompress : List Nat → List Nat) (raw : List Nat) (seed : String),
      decompress (compress raw) ≠ raw →
      build_binary_payload_bytes compress decompress raw seed =
        Except.error "binary payload codec self-check failed") ∧
    (∀ (compress decompress : List Nat → List Nat) (rows : List Entry) (seed : String),
      decompress (compress (entriesJsonBytes rows)) ≠ entriesJsonBytes rows →
      build_payload_bytes compress decompress rows seed =
        Except.error "payload codec self-check failed") := by
  refine ⟨?_, ?_, ?_, ?_⟩
  · intro compress decompress hzrt raw seed
    exact ⟨xor_obfuscate (compress raw) seed,
      build_binary_ok compress decompress raw seed (hzrt raw),
      by rw [xor_obfuscate_involutive, hzrt]⟩
  · intro compress decompress hzrt entries seed
    obtain ⟨meta, payload, hgo, hmeta⟩ := spatialGo_spec compress decompress hzrt seed
      entries (Py.pySorted (dedupStr (entries.map bucketKeyOf))) 0
    refine ⟨meta, payload, hgo, ?_⟩
    intro p hp
    obtain ⟨-, hslice, hsha, hcount⟩ := hmeta p hp
    rw [Nat.sub_zero] at hslice
    exact ⟨hslice, by rw [hslice, xor_obfuscate_involutive, hzrt], hsha, hcount⟩
  · intro compress decompress raw seed hne
    simp [build_binary_payload_bytes, xor_obfuscate_involutive, hne]
  · intro compress decompress rows seed hne
    simp [build_payload_bytes, xor_obfuscate_involutive, hne]

/-- Witness for C1 at a concrete input: identity compression, a three-byte
image chunk and a one-entry spatial payload, plus a failing decompressor
triggering the abort. -/
theorem C1_payload_roundtrip_selfcheck_witness :
    (∀ b : List Nat, id (id b) = b) ∧
    (∃ chunk,
      build_binary_payload_bytes id id [1, 2, 3] "k" =
        Except.ok (chunk, sha256hex [1, 2, 3]) ∧
      id (xor_obfuscate chunk "k") = [1, 2, 3]) ∧
    ((fun _ => ([] : List Nat)) (id ([1] : List Nat)) ≠ [1]) ∧
    (build_binary_payload_bytes id (fun _ => []) [1] "k" =
      Except.error "binary payload codec self-check failed") :=
  ⟨fun _ => rfl,
    C1_payload_roundtrip_selfcheck.1 id id (fun _ => rfl) [1, 2, 3] "k",
    by decide,
    C1_payload_roundtrip_selfcheck.2.2.1 id (fun _ => []) [1] "k" (by decide)⟩

end Export

/-! ## Content enrichment (`scripts/enrich_event_content.py`) -/

namespace Content

/-- `clean_text` of the content script: collapse whitespace runs and
strip. -/
def clean_text (s : String) : String := Py.cleanWs s

/-- Python `str.splitlines()` restricted to the newline shapes the
pipeline produces (`\n`, `\r`, `\r\n`). -/
def splitlinesGo : List Char → List Char → List (List Char)
  | [], acc => if acc.isEmpty then [] else [acc.reverse]
  | '\r' :: '\n' :: rest, acc => acc.reverse :: splitlinesGo rest []
  | '\r' :: rest, acc => acc.reverse :: splitlinesGo rest []
  | '\n' :: rest, acc => acc.reverse :: splitlinesGo rest []
  | c :: rest, acc => splitlinesGo rest (c :: acc)

/-- Python `str.splitlines()`. -/
def splitlines (s : String) : List String :=
  (splitlinesGo s.data []).map (fun l => ⟨l⟩)

/-- `clean_text_block`: clean each line, drop empties, re-join with
`"\n"`. -/
def clean_text_block (s : String) : String :=
  if s = "" then ""
  else
    let lines := (splitlines s).map clean_text
    String.intercalate "\n" (lines.filter (· ≠ ""))

/-- `source_signature(urls)`: a SHA-256 digest fed, for each URL in
sorted order, the URL's UTF-8 bytes followed by one `\n` byte. -/
def source_signature (urls : List String) : String :=
  sha256hex (((Py.pySorted urls).map (fun u => utf8 u ++ [10])).flatten)

/-- `"\n".join(...)` (spec-side helper for C6). -/
def joinNl : List String → String
  | [] => ""
  | [x] => x
  | x :: y :: t => x ++ "\n" ++ joinNl (y :: t)

/-- Spec-side signature for C6, from the claim's words: SHA-256 hex of
the sorted URLs joined with `"\n"` and terminated by a final `"\n"`. -/
def source_signature_spec (urls : List String) : String :=
  sha256hex (utf8 (joinNl (Py.pySorted urls) ++ "\n"))

theorem utf8_append (a b : String) : utf8 (a ++ b) = utf8 a ++ utf8 b := by
  show ((a.data ++ b.data).map utf8Char).flatten = _
  rw [List.map_append, List.flatten_append]
  rfl

theorem length_sortedInsert (x : String) (l : List String) :
    (Py.sortedInsert x l).length = l.length + 1 := by
  induction l with
  | nil => rfl
  | cons y rest ih =>
    simp only [Py.sortedInsert]
    split
    · simp [ih]
    · simp

theorem length_pySorted (l : List String) : (Py.pySorted l).length = l.length := by
  unfold Py.pySorted
  induction l with
  | nil => rfl
  | cons x rest ih => simp [length_sortedInsert, ih]

theorem pySorted_ne_nil (l : List String) (h : l ≠ []) : Py.pySorted l ≠ [] := by
  intro hs
  have := length_pySorted l
  rw [hs] at this
  exact h (List.length_eq_zero.mp this.symm)

theorem sig_bytes_eq : ∀ (us : List String), us ≠ [] →
    ((us.map (fun u => utf8 u ++ [10])).flatten) = utf8 (joinNl us ++ "\n") := by
  intro us
  induction us with
  | nil => intro h; exact absurd rfl h
  | cons x rest ih =>
    intro _
    cases rest with
    | nil =>
      show (utf8 x ++ [10]) ++ [] = utf8 (x ++ "\n")
      rw [utf8_append, List.append_nil]
      rfl
    | cons y t =>
      show (utf8 x ++ [10]) ++ ((y :: t).map (fun u => utf8 u ++ [10])).flatten =
        utf8 ((x ++ "\n" ++ joinNl (y :: t)) ++ "\n")
      rw [ih (by simp)]
      simp [utf8_append, show utf8 "\n" = [10] from rfl, List.append_assoc]

/-- The fields of a previous content record that the reuse decision
reads (each read through `str(… or "")`, so plain strings here;
`image_urls` is `none` when the stored value is not a list). -/
structure PrevContent where
  source_urls_sig : String
  fetched_at : String
  raw_description : String
  image_urls : Option (List String)
  status : String
  error : String
  polished_description : String
  one_liner : String
  polished_description_zh : String
  one_liner_zh : String
  polished_description_en : String
  one_liner_en : String

/-- `has_images`: `isinstance(image_urls, list) and len(image_urls) > 0`. -/
def hasImages (p : PrevContent) : Bool :=
  match p.image_urls with
  | some l => decide (l.length > 0)
  | none => false

/-- `is_recent_enough(previous, …)`.  Timestamps are seconds (`parseIso`
models `parse_iso_datetime`, `none` for unparseable text; `now` models
`datetime.now(timezone.utc)`); the age comparison
`age > timedelta(days=max(min_refresh_days, 0))` becomes a comparison
with `86400 * max min_refresh_days 0` seconds.  `desired_polish_mode` is
accepted and ignored exactly as in the source. -/
def is_recent_enough (parseIso : String → Option Int) (now : Int)
    (previous : Option PrevContent) (current_signature : String)
    (min_refresh_days : Int) (force : Bool)
    (desired_polish_mode : String) : Bool :=
  if force then false
  else
    match previous with
    | none => false
    | some prev =>
      if prev.source_urls_sig ≠ current_signature then false
      else
        match parseIso prev.fetched_at with
        | none => false
        | some t =>
          if now - t > 86400 * max min_refresh_days 0 then false
          else Py.truthy (clean_text_block prev.raw_description) || hasImages prev

/-- `is_failed_or_incomplete(previous)`. -/
def is_failed_or_incomplete (previous : Option PrevContent) : Bool :=
  match previous with
  | none => true
  | some p =>
    let status := Py.lower (clean_text p.status)
    let error_text := clean_text_block p.error
    let raw_description := clean_text_block p.raw_description
    let has_ja := Py.truthy (clean_text_block p.polished_description) &&
      Py.truthy (clean_text_block p.one_liner)
    let has_zh := Py.truthy (clean_text_block p.polished_description_zh) &&
      Py.truthy (clean_text_block p.one_liner_zh)
    let has_en := Py.truthy (clean_text_block p.polished_description_en) &&
      Py.truthy (clean_text_block p.one_liner_en)
    if status ∈ ["partial", "empty", "openai_failed", "codex_failed"] then true
    else if error_text ≠ "" then true
    else if raw_description = "" && !hasImages p then true
    else if raw_description ≠ "" && (!has_ja || !has_zh || !has_en) then true
    else false

/-- `should_reuse_success_in_failed_only(previous, force=…)`. -/
def should_reuse_success_in_failed_only (previous : Option PrevContent)
    (force : Bool) : Bool :=
  if force then false
  else match previous with
    | none => false
    | some _ => ! is_failed_or_incomplete previous

/-- Which branch of the per-row loop of `run_project` handles a row
(lines 1814 / 1834): failed-only reuse, freshness-cache reuse, or a
fresh fetch. -/
inductive RowBranch where
  | reusedFailedOnly : RowBranch
  | reusedFresh : RowBranch
  | fresh : RowBranch
deriving DecidableEq

/-- The branch selection of `run_project` for one row. -/
def run_project_branch (failed_only force : Bool) (prev : Option PrevContent)
    (sig : String) (min_refresh_days : Int)
    (parseIso : String → Option Int) (now : Int)
    (desired_polish_mode : String) : RowBranch :=
  if failed_only && should_reuse_success_in_failed_only prev force then
    .reusedFailedOnly
  else if (!failed_only) && is_recent_enough parseIso now prev sig
      min_refresh_days force desired_polish_mode then
    .reusedFresh
  else .fresh

set_option maxRecDepth 20000 in
/-- Counterexample to C6 as stated: for an empty `source_urls` the code
hashes the empty byte string, not `"\n"`, so the recorded signature is
`sha256("")` and not the claimed `sha256(join + "\n") = sha256("\n")`. -/
theorem C6_signature_empty_counterexample :
    source_signature [] ≠ source_signature_spec [] := by
  decide

theorem is_recent_enough_true (parseIso : String → Option Int) (now t : Int)
    (prev : PrevContent) (sig : String) (mrd : Int) (dpm : String)
    (hsig : prev.source_urls_sig = sig)
    (hparse : parseIso prev.fetched_at = some t)
    (hage : now - t ≤ 86400 * max mrd 0)
    (hcontent : clean_text_block prev.raw_description ≠ "" ∨ hasImages prev = true) :
    is_recent_enough parseIso now (some prev) sig mrd false dpm = true := by
  simp only [is_recent_enough, Bool.false_eq_true, if_false, hsig, hparse]
  rw [if_neg (by simp), if_neg (by omega)]
  rcases hcontent with h | h
  · simp [Py.truthy, h]
  · simp [h]

/-- C6 (amended): for nonempty `source_urls` the signature is exactly
`sha256(join("\n", sorted(urls)) + "\n")` hex; for the empty list it is
the SHA-256 hex of the empty byte string; and when the run is not in
`failed_only` mode, a previous record with the current signature, a
parseable `fetched_at` within `min_refresh_days`, the force flag off,
and a description or at least one image, is reused from the freshness
cache. -/
theorem C6_signature_and_reuse :
    (∀ urls : List String, urls ≠ [] →
      source_signature urls = source_signature_spec urls) ∧
    source_signature [] = sha256hex [] ∧
    (∀ (parseIso : String → Option Int) (now t : Int) (prev : PrevContent)
        (sig : String) (min_refresh_days : Int) (dpm : String),
      prev.source_urls_sig = sig →
      parseIso prev.fetched_at = some t →
      now - t ≤ 86400 * max min_refresh_days 0 →
      (clean_text_block prev.raw_description ≠ "" ∨ hasImages prev = true) →
      run_project_branch false false (some prev) sig min_refresh_days
        parseIso now dpm = .reusedFresh) := by
  refine ⟨?_, rfl, ?_⟩
  · intro urls hne
    unfold source_signature source_signature_spec
    rw [sig_bytes_eq _ (pySorted_ne_nil urls hne)]
  · intro parseIso now t prev sig mrd dpm hsig hparse hage hcontent
    simp only [run_project_branch, Bool.false_and, Bool.false_eq_true, if_false,
      Bool.not_false, Bool.true_and]
    rw [is_recent_enough_true parseIso now t prev sig mrd dpm hsig hparse hage
      hcontent]
    rfl

/-- Witness for C6 at concrete inputs: two URLs out of order, and a
concrete fresh previous record. -/
theorem C6_signature_and_reuse_witness :
    ((["b", "a"] : List String) ≠ []) ∧
    source_signature ["b", "a"] = source_signature_spec ["b", "a"] ∧
    run_project_branch false false
      (some ⟨"s", "2024-01-01T00:00:00+00:00", "desc", some [], "ok", "",
        "p", "o", "pz", "oz", "pe", "oe"⟩)
      "s" 45 (fun _ => some 0) 86400 "openai" = .reusedFresh :=
  ⟨by decide,
    C6_signature_and_reuse.1 ["b", "a"] (by decide),
    C6_signature_and_reuse.2.2 (fun _ => some 0) 86400 0
      ⟨"s", "2024-01-01T00:00:00+00:00", "desc", some [], "ok", "",
        "p", "o", "pz", "oz", "pe", "oe"⟩
      "s" 45 "openai" rfl rfl (by decide)
      (Or.inl (by decide))⟩

end Content

namespace Content

/-- The status assignment for a freshly fetched record
(`run_project`, lines 2066–2070): start at `"ok"`, demote to `"empty"`
when neither a description nor an image URL was extracted, else to
`"partial"` when an error string accumulated. -/
def fresh_status (raw_description : String) (image_urls : List String)
    (fetch_error : String) : String :=
  if raw_description = "" ∧ image_urls = [] then "empty"
  else if fetch_error ≠ "" then "partial"
  else "ok"

/-- The `(status, error)` pair carried by the fresh record the same loop
emits (lines 2072–2096: `"status": status, "error": fetch_error`). -/
def fresh_status_error (raw_description : String) (image_urls : List String)
    (fetch_error : String) : String × String :=
  (fresh_status raw_description image_urls fetch_error, fetch_error)

/-- C10: a fresh record's status is `"empty"` exactly when both the
extracted description and the image list are empty, `"partial"` exactly
when something was extracted but an error string was recorded, and
`"ok"` otherwise; a fresh `"ok"` record always has an empty error
field. -/
theorem C10_fresh_status_classification
    (raw_description : String) (image_urls : List String)
    (fetch_error : String) :
    (fresh_status raw_description image_urls fetch_error = "empty" ↔
      (raw_description = "" ∧ image_urls = [])) ∧
    (fresh_status raw_description image_urls fetch_error = "partial" ↔
      (¬ (raw_description = "" ∧ image_urls = []) ∧ fetch_error ≠ "")) ∧
    (fresh_status raw_description image_urls fetch_error = "ok" ↔
      (¬ (raw_description = "" ∧ image_urls = []) ∧ fetch_error = "")) ∧
    (fresh_status raw_description image_urls fetch_error = "ok" →
      (fresh_status_error raw_description image_urls fetch_error).2 = "") := by
  unfold fresh_status fresh_status_error
  split_ifs with h1 h2 <;>
    refine ⟨?_, ?_, ?_, ?_⟩ <;>
    simp_all

/-- Witness for C10: a record with a description and no error is `"ok"`
with an empty error field. -/
theorem C10_fresh_status_classification_witness :
    fresh_status "desc" [] "" = "ok" ∧
    (fresh_status_error "desc" [] "").2 = "" :=
  ⟨by decide,
    (C10_fresh_status_classification "desc" [] "").2.2.2 (by decide)⟩

end Content

/-! ## Scoring (`scripts/enrich_event_scores.py`) -/

namespace Scores

/-- `clean_text` of the scoring script: `str(raw).strip()`. -/
def clean_text (s : String) : String := Py.strip s

/-- `clamp(v, lo, hi) = max(lo, min(hi, v))`. -/
def clamp (v lo hi : Int) : Int := max lo (min hi v)

/-- `parse_number` lifted to an optional field (`None → None`). -/
def parse_number_opt : Option String → Option Nat
  | none => none
  | some s => Py.parse_number s

/-- Python `x or d` on an optional number (both `None` and `0` are
falsy). -/
def pyOrNat (v : Option Nat) (d : Nat) : Nat :=
  match v with
  | some n => if n = 0 then d else n
  | none => d

/-- The fused-row fields `fallback_scores` reads (as the raw text the
row carries; `none` for an absent field). -/
structure ScoreRowInput where
  source_count : Option String
  launch_count : Option String
  expected_visitors : Option String

/-- `fallback_scores(row, category)`.  `int(launch_count**0.5 / 3)` is
`Nat.sqrt launch_count / 3` (for integer inputs below 2⁵³ the float
square root is exact on perfect squares and never close enough to a
multiple of 3 elsewhere to move the floor). -/
def fallback_scores (row : ScoreRowInput) (category : String) :
    Int × Int × String :=
  let source_count := pyOrNat (parse_number_opt row.source_count) 1
  let launch_count := pyOrNat (parse_number_opt row.launch_count) 0
  let visitors := pyOrNat (parse_number_opt row.expected_visitors) 0
  let base : Int := 42 + min (source_count * 7) 22
  let base := if category = "hanabi" then base + 5 else base
  let base := if launch_count > 0 then
    base + min (Nat.sqrt launch_count / 3 : Nat) 18 else base
  let base := if visitors > 0 then
    base + min (Nat.sqrt visitors / 9 : Nat) 18 else base
  let initial_heat := clamp base 20 95
  let surprise := clamp (45 + (initial_heat * 29) % 41) 12 96
  (initial_heat, surprise, "heuristic")

/-- Spec-side fallback formula, from the claim's words: `base = 42 +
min(source_count × 7, 22)`, plus 5 for hanabi, plus
`min(⌊√launch/3⌋, 18)` when `launch > 0`, plus `min(⌊√visitors/9⌋, 18)`
when `visitors > 0`; `heat = clamp(base, 20, 95)`;
`surprise = clamp(45 + (heat × 29) mod 41, 12, 96)`. -/
def fallback_spec (source_count launch_count visitors : Nat)
    (isHanabi : Bool) : Int × Int :=
  let base : Int := 42 + min (source_count * 7) 22 +
    (if isHanabi then 5 else 0) +
    (if launch_count > 0 then (min (Nat.sqrt launch_count / 3 : Nat) 18 : Int) else 0) +
    (if visitors > 0 then (min (Nat.sqrt visitors / 9 : Nat) 18 : Int) else 0)
  let heat := max 20 (min 95 base)
  (heat, max 12 (min 96 (45 + (heat * 29) % 41)))

/-- One output row of the scoring loop (the fields C7 is about). -/
structure ScoreOut where
  initial_heat_score : Int
  surprise_score : Int
  reason : String
  status : String
  score_source : String
  score_provider : String
  score_model : String
  input_hash : String
  error : String

/-- What the per-row loop emits: reuse of the previous row, or a fresh
output row. -/
inductive StepResult where
  | reusedPrev : StepResult
  | out : ScoreOut → StepResult

/-- The reuse decision of the loop (lines 706–716), on the previous
row's cleaned lowered `status` and cleaned `input_hash`. -/
def reuse_decision (failed_only : Bool)
    (prev : Option (String × String)) (sig : String) : Bool :=
  match prev with
  | none => false
  | some (status, hash) =>
    if status = "ok" then
      if failed_only then true
      else hash ≠ "" && hash = sig
    else if decide ("cached".data <+: status.data) then
      hash ≠ "" && hash = sig
    else false

/-- One iteration of the scoring loop (lines 699–824).  The analyzer is
`none` when no API key is configured; otherwise its call on this row is
modelled by its outcome: an error string (any exception) or the two
`parse_score_value` results plus the cleaned reason. -/
def score_step (failed_only : Bool) (prev : Option (String × String))
    (max_events api_calls : Nat)
    (analyzer : Option (Except String (Option Int × Option Int × String)))
    (row : ScoreRowInput) (category sig model_tag : String) : StepResult :=
  if reuse_decision failed_only prev sig then .reusedPrev
  else if max_events > 0 && api_calls ≥ max_events then
    let (initial_heat, surprise, reason) := fallback_scores row category
    .out ⟨initial_heat, surprise, reason, "fallback_max_events", "fallback",
      "local", "", sig, "max_events_reached"⟩
  else
    match analyzer with
    | none =>
      let (initial_heat, surprise, reason) := fallback_scores row category
      .out ⟨initial_heat, surprise, reason, "fallback_no_api_key", "fallback",
        "local", "", sig, "missing_api_key"⟩
    | some (Except.ok (some initial_heat, some surprise, reason)) =>
      .out ⟨initial_heat, surprise, reason, "ok", "ai", "deepseek", model_tag,
        sig, ""⟩
    | some (Except.ok (heat?, surprise?, _)) =>
      -- `initial_heat is None or surprise is None` raises, caught below
      let msg := "missing initial_heat_score/surprise_score in model output"
      let (initial_heat, surprise, reason) := fallback_scores row category
      let _ := (heat?, surprise?)
      .out ⟨initial_heat, surprise, reason, "fallback_ai_error", "fallback",
        "local", "", sig, ⟨(clean_text msg).data.take 300⟩⟩
    | some (Except.error msg) =>
      let (initial_heat, surprise, reason) := fallback_scores row category
      .out ⟨initial_heat, surprise, reason, "fallback_ai_error", "fallback",
        "local", "", sig, ⟨(clean_text msg).data.take 300⟩⟩

/-- C7: equivalence of the code's heuristic fallback with the claim's
formula, and — on each of the three paths where the AI scorer cannot be
used (budget exhausted, no API key, AI call failure) — the emitted row
records `score_source="fallback"`, the matching specific status, and
exactly the heuristic scores. -/
theorem C7_fallback_scores_correct :
    (∀ (row : ScoreRowInput) (category : String),
      fallback_scores row category =
        ((fallback_spec (pyOrNat (parse_number_opt row.source_count) 1)
            (pyOrNat (parse_number_opt row.launch_count) 0)
            (pyOrNat (parse_number_opt row.expected_visitors) 0)
            (category = "hanabi")).1,
         (fallback_spec (pyOrNat (parse_number_opt row.source_count) 1)
            (pyOrNat (parse_number_opt row.launch_count) 0)
            (pyOrNat (parse_number_opt row.expected_visitors) 0)
            (category = "hanabi")).2,
         "heuristic")) ∧
    (∀ (failed_only : Bool) (prev : Option (String × String))
        (max_events api_calls : Nat) (analyzer : Option _)
        (row : ScoreRowInput) (category sig model_tag : String),
      reuse_decision failed_only prev sig = false →
      max_events > 0 → api_calls ≥ max_events →
      score_step failed_only prev max_events api_calls analyzer row category
          sig model_tag =
        .out ⟨(fallback_scores row category).1, (fallback_scores row category).2.1,
          "heuristic", "fallback_max_events", "fallback", "local", "", sig,
          "max_events_reached"⟩) ∧
    (∀ (failed_only : Bool) (prev : Option (String × String))
        (max_events api_calls : Nat) (row : ScoreRowInput)
        (category sig model_tag : String),
      reuse_decision failed_only prev sig = false →
      (max_events > 0 && api_calls ≥ max_events) = false →
      score_step failed_only prev max_events api_calls none row category
          sig model_tag =
        .out ⟨(fallback_scores row category).1, (fallback_scores row category).2.1,
          "heuristic", "fallback_no_api_key", "fallback", "local", "", sig,
          "missing_api_key"⟩) ∧
    (∀ (failed_only : Bool) (prev : Option (String × String))
        (max_events api_calls : Nat) (msg : String) (row : ScoreRowInput)
        (category sig model_tag : String),
      reuse_decision failed_only prev sig = false →
      (max_events > 0 && api_calls ≥ max_events) = false →
      score_step failed_only prev max_events api_calls
          (some (Except.error msg)) row category sig model_tag =
        .out ⟨(fallback_scores row category).1, (fallback_scores row category).2.1,
          "heuristic", "fallback_ai_error", "fallback", "local", "", sig,
          ⟨(clean_text msg).data.take 300⟩⟩) := by
  refine ⟨?_, ?_, ?_, ?_⟩
  · intro row category
    unfold fallback_scores fallback_spec
    generalize pyOrNat (parse_number_opt row.source_count) 1 = sc
    generalize pyOrNat (parse_number_opt row.launch_count) 0 = lc
    generalize pyOrNat (parse_number_opt row.expected_visitors) 0 = vis
    simp only [clamp]
    split_ifs <;> simp_all [Nat.cast_min, add_zero]
  · intro failed_only prev max_events api_calls analyzer row category sig
      model_tag hreuse hme hcalls
    unfold score_step
    rw [if_neg (by simp [hreuse]), if_pos (by simp [hme, hcalls])]
    rfl
  · intro failed_only prev max_events api_calls row category sig model_tag
      hreuse hbudget
    unfold score_step
    rw [if_neg (by simp [hreuse]), if_neg (by simp [hbudget])]
    rfl
  · intro failed_only prev max_events api_calls msg row category sig model_tag
      hreuse hbudget
    unfold score_step
    rw [if_neg (by simp [hreuse]), if_neg (by simp [hbudget])]
    rfl

/-- Witness for C7 at concrete inputs: a non-reused row on the
budget-exhausted path and on the no-API-key path. -/
theorem C7_fallback_scores_correct_witness :
    reuse_decision false none "s" = false ∧
    ((1 : Nat) > 0) ∧ ((1 : Nat) ≥ 1) ∧
    score_step false none 1 1 none ⟨some "3", some "10000", none⟩ "hanabi"
        "s" "m" =
      .out ⟨(fallback_scores ⟨some "3", some "10000", none⟩ "hanabi").1,
        (fallback_scores ⟨some "3", some "10000", none⟩ "hanabi").2.1,
        "heuristic", "fallback_max_events", "fallback", "local", "", "s",
        "max_events_reached"⟩ ∧
    score_step false none 0 0 none ⟨none, none, none⟩ "matsuri" "s" "m" =
      .out ⟨(fallback_scores ⟨none, none, none⟩ "matsuri").1,
        (fallback_scores ⟨none, none, none⟩ "matsuri").2.1,
        "heuristic", "fallback_no_api_key", "fallback", "local", "", "s",
        "missing_api_key"⟩ :=
  ⟨by decide, by decide, by decide,
    C7_fallback_scores_correct.2.1 false none 1 1 none
      ⟨some "3", some "10000", none⟩ "hanabi" "s" "m" (by decide) (by decide)
      (by decide),
    C7_fallback_scores_correct.2.2.1 false none 0 0
      ⟨none, none, none⟩ "matsuri" "s" "m" (by decide) (by decide)⟩

end Scores

/-! ## Fusion engine (`HANABI/hanabi_crawler/fusion.py`)

`html.unescape` (the entity table of the Python standard library) is
threaded through as an explicit parameter `ue`; everything else is
embedded directly. -/

namespace Fusion

/-- `_clean(s)` on an optional field: empty for `None`/`""`, else
HTML-unescape, collapse whitespace runs, strip. -/
def cleanOpt (ue : String → String) : Option String → String
  | none => ""
  | some s => if s = "" then "" else Py.cleanWs (ue s)

/-- `_clean` on a string value. -/
def cleanStr (ue : String → String) (s : String) : String :=
  cleanOpt ue (some s)

/-- Generic first-occurrence deduplication (fuelled structural
recursion; the wrapper passes the length). -/
def dedupListAux {α : Type} [DecidableEq α] : Nat → List α → List α
  | 0, _ => []
  | _, [] => []
  | fuel + 1, x :: rest =>
    if x ∈ rest then x :: dedupListAux fuel (rest.filter (· ≠ x))
    else x :: dedupListAux fuel rest

/-- Generic first-occurrence deduplication. -/
def dedupList {α : Type} [DecidableEq α] (l : List α) : List α :=
  dedupListAux l.length l

/-- One raw crawler record, with the fields the fusion loop reads
(`None` for an absent key).  `event_year_tag` models the `_event_year`
annotation `fuse_records` stamps on every row before grouping. -/
structure RawRow where
  source_site : String
  source_url : Option String
  event_name : Option String
  event_date_start : Option String
  event_date_end : Option String
  event_time_start : Option String
  event_time_end : Option String
  venue_name : Option String
  venue_address : Option String
  prefecture : Option String
  city : Option String
  lat : Option String
  lng : Option String
  launch_count : Option String
  launch_scale : Option String
  paid_seat : Option String
  access_text : Option String
  parking_text : Option String
  traffic_control_text : Option String
  rainout_policy : Option String
  contact : Option String
  weather_summary : Option String
  event_year_tag : String := ""

/-- `row.get(field)` for the fields of `all_fields`. -/
def RawRow.get (m : RawRow) : String → Option String
  | "event_name" => m.event_name
  | "event_date_start" => m.event_date_start
  | "event_date_end" => m.event_date_end
  | "event_time_start" => m.event_time_start
  | "event_time_end" => m.event_time_end
  | "venue_name" => m.venue_name
  | "venue_address" => m.venue_address
  | "prefecture" => m.prefecture
  | "city" => m.city
  | "lat" => m.lat
  | "lng" => m.lng
  | "launch_count" => m.launch_count
  | "launch_scale" => m.launch_scale
  | "paid_seat" => m.paid_seat
  | "access_text" => m.access_text
  | "parking_text" => m.parking_text
  | "traffic_control_text" => m.traffic_control_text
  | "rainout_policy" => m.rainout_policy
  | "contact" => m.contact
  | "weather_summary" => m.weather_summary
  | "source_url" => m.source_url
  | _ => none

/-- The per-site trust weights (`_score_value` / `_site_weight`). -/
def siteWeight (site : String) : Int :=
  if site = "hanabi_cloud" then 8
  else if site = "jorudan" then 6
  else if site = "sorahanabi" then 4
  else if site = "weathernews" then 4
  else if site = "hanabeat" then 4
  else if site = "hanabi_navi" then 4
  else if site = "jalan" then 3
  else if site = "hanabeam" then 2
  else 1

/-- `_score_value(field, value, source_site)`. -/
def score_value (ue : String → String) (field : String) (value : Option String)
    (source_site : String) : Int :=
  match value with
  | none => 0
  | some v =>
    let val := cleanStr ue v
    if val = "" then 0
    else if val ∈ ["--", "---", "未定", "非公表", "調査中"] then 1
    else
      let base : Int := min val.length 200
      let site_weight := siteWeight source_site
      if field = "event_name" then site_weight * 10 + max 0 (80 - base)
      else if field = "lat" ∨ field = "lng" then site_weight * 100 + 100
      else site_weight * 10 + base

/-- Python `float(s)` on the decimal/scientific literals the pipeline
carries (exact rational value; `inf`/`nan` literals and numeric
underscores are outside the modelled domain). -/
def pyFloat (s : String) : Option ℚ :=
  let cs := s.data
  let (sign, cs) : ℚ × List Char :=
    match cs with
    | '-' :: rest => (-1, rest)
    | '+' :: rest => (1, rest)
    | _ => (1, cs)
  let ip := cs.takeWhile Py.isDigit
  let cs := cs.drop ip.length
  let (fp, cs) : List Char × List Char :=
    match cs with
    | '.' :: rest => (rest.takeWhile Py.isDigit, rest.drop (rest.takeWhile Py.isDigit).length)
    | _ => ([], cs)
  if ip.isEmpty && fp.isEmpty then none
  else
    let mant : ℚ := (Py.digitsVal ip : ℚ) + (Py.digitsVal fp : ℚ) / ((10 : ℚ) ^ fp.length)
    match cs with
    | [] => some (sign * mant)
    | e :: rest =>
      if e = 'e' ∨ e = 'E' then
        let (esign, rest) : Int × List Char :=
          match rest with
          | '-' :: r => (-1, r)
          | '+' :: r => (1, r)
          | _ => (1, rest)
        let ed := rest.takeWhile Py.isDigit
        if ed.isEmpty ∨ ed.length ≠ rest.length then none
        else some (sign * mant * (10 : ℚ) ^ (esign * (Py.digitsVal ed : Int)))
      else none

/-- `_to_coord(value)` on a raw string field. -/
def to_coord (ue : String → String) (value : Option String) : Option ℚ :=
  match value with
  | none => none
  | some v =>
    let s := cleanStr ue v
    if s = "" then none else pyFloat s

end Fusion

namespace Fusion

/-- `re.sub` of one bracketed-run pattern (`【[^】]*】` and friends): each
opening bracket with a later closing bracket is replaced, together with
everything between, by one space; an opening bracket without a closer
stays.  Structural on a fuel the wrapper sets to the length. -/
def stripBracketedAux (openC closeC : Char) : Nat → List Char → List Char
  | 0, _ => []
  | _, [] => []
  | fuel + 1, c :: rest =>
    if c = openC then
      match rest.dropWhile (· ≠ closeC) with
      | [] => c :: stripBracketedAux openC closeC fuel rest
      | _ :: after => ' ' :: stripBracketedAux openC closeC fuel after
    else c :: stripBracketedAux openC closeC fuel rest

/-- Bracketed-run removal. -/
def stripBracketed (openC closeC : Char) (cs : List Char) : List Char :=
  stripBracketedAux openC closeC cs.length cs

/-- `re.sub(r"\s*-\s*.*$", " ", s)`: cut everything from the first
hyphen (together with the whitespace run just before it) and leave one
space.  At this point in the pipeline whitespace is single spaces
(`_clean` ran first). -/
def stripDashTailAux : Nat → List Char → List Char
  | 0, _ => []
  | _, [] => []
  | fuel + 1, c :: rest =>
    if c = '-' then [' ']
    else if Py.isSpace c then
      let sp := (c :: rest).takeWhile Py.isSpace
      let after := (c :: rest).drop sp.length
      match after with
      | '-' :: _ => [' ']
      | _ => sp ++ stripDashTailAux fuel after
    else c :: stripDashTailAux fuel rest

/-- Dash-tail removal. -/
def stripDashTail (cs : List Char) : List Char :=
  stripDashTailAux cs.length cs

/-- `re.sub(r"で開催[^\s]*", " ", s)`: every occurrence of `で開催`
plus its following non-space run becomes one space. -/
def stripDeKaisaiAux : Nat → List Char → List Char
  | 0, _ => []
  | _, [] => []
  | fuel + 1, c :: rest =>
    if (c :: rest).take 3 = ['で', '開', '催'] then
      ' ' :: stripDeKaisaiAux fuel (((c :: rest).drop 3).dropWhile (fun x => ¬ Py.isSpace x))
    else c :: stripDeKaisaiAux fuel rest

/-- `で開催…` removal. -/
def stripDeKaisai (cs : List Char) : List Char :=
  stripDeKaisaiAux cs.length cs

/-- `re.sub(r"[「」『』]", " ", s)`. -/
def stripQuotes (cs : List Char) : List Char :=
  cs.map (fun c => if c ∈ ['「', '」', '『', '』'] then ' ' else c)

/-- `_normalize_event_name_for_geocode(text)`. -/
def normalize_event_name_for_geocode (ue : String → String)
    (text : Option String) : String :=
  let s := cleanOpt ue text
  if s = "" then ""
  else
    let cs := s.data
    let cs := stripBracketed '【' '】' cs
    let cs := stripBracketed '[' ']' cs
    let cs := stripBracketed '（' '）' cs
    let cs := stripBracketed '(' ')' cs
    let cs := stripDashTail cs
    let cs := stripDeKaisai cs
    let cs := stripQuotes cs
    cleanStr ue ⟨cs⟩

/-- `re.search(r"(北海道|東京都|京都府|大阪府|.{2,3}県)", s)` — leftmost
match, alternatives in order, `{2,3}` greedy (the strings scanned here
contain no newline: `_clean` ran first). -/
def extractPrefAux : Nat → List Char → String
  | 0, _ => ""
  | _, [] => ""
  | fuel + 1, c :: rest =>
    let cs := c :: rest
    if cs.take 3 = ['北', '海', '道'] then "北海道"
    else if cs.take 3 = ['東', '京', '都'] then "東京都"
    else if cs.take 3 = ['京', '都', '府'] then "京都府"
    else if cs.take 3 = ['大', '阪', '府'] then "大阪府"
    else if 4 ≤ cs.length ∧ cs.getD 3 ' ' = '県' then ⟨cs.take 4⟩
    else if 3 ≤ cs.length ∧ cs.getD 2 ' ' = '県' then ⟨cs.take 3⟩
    else extractPrefAux fuel rest

/-- `_extract_pref(text)`. -/
def extract_pref (ue : String → String) (text : Option String) : String :=
  let s := cleanOpt ue text
  if s = "" then "" else extractPrefAux s.data.length s.data

/-- `a or b or c` chains on optional row fields (`None`/`""` falsy). -/
def pyOrOpt : Option String → Option String → Option String
  | some a, b => if a = "" then b else some a
  | none, b => b

/-- `_build_geocode_queries(row)` over the merged fields (query text and
strategy name, in construction order, cleaned, deduplicated, and with
queries shorter than four characters dropped). -/
def filterQueries (ue : String → String) (queries : List (String × String)) :
    List (String × String) :=
  go queries []
where
  go : List (String × String) → List String → List (String × String)
    | [], _ => []
    | (q, strategy) :: rest, seen =>
      let q := cleanStr ue q
      if q = "" ∨ q.length < 4 then go rest seen
      else if q ∈ seen then go rest seen
      else (q, strategy) :: go rest (q :: seen)

end Fusion

namespace Fusion

/-- One fused (canonical) event row.  `lat`/`lng` are `none` for the
empty string the code stores on `geo_source = "missing"`, and carry the
resolved float otherwise. -/
structure MergedRow where
  canonical_id : String
  dedup_key : String
  event_year : String
  geo_source : String
  source_sites : List String
  source_urls : List String
  source_count : Nat
  fused_at : String
  event_name : Option String
  event_date_start : Option String
  event_date_end : Option String
  event_time_start : Option String
  event_time_end : Option String
  venue_name : Option String
  venue_address : Option String
  prefecture : Option String
  city : Option String
  lat : Option ℚ
  lng : Option ℚ
  launch_count : Option String
  launch_scale : Option String
  paid_seat : Option String
  access_text : Option String
  parking_text : Option String
  traffic_control_text : Option String
  rainout_policy : Option String
  contact : Option String
  weather_summary : Option String
  is_info_incomplete : String := ""
  incomplete_field_count : String := ""
  incomplete_fields : String := ""
  update_priority : String := ""

/-- The geocoder collaborator's response
(`GeocodeResponse`: status, query, lat, lng, title, error, cache_hit). -/
structure GeoResp where
  status : String
  query : String
  lat : Option ℚ
  lng : Option ℚ
  title : String
  error : String
  cache_hit : Bool

/-- `_build_geocode_queries(row)` on the merged fields. -/
def build_geocode_queries (ue : String → String) (m : MergedRow) :
    List (String × String) :=
  let venue_address := cleanOpt ue m.venue_address
  let prefecture := cleanOpt ue m.prefecture
  let city := cleanOpt ue m.city
  let venue_name := cleanOpt ue m.venue_name
  let event_name := cleanOpt ue m.event_name
  let event_name_norm := normalize_event_name_for_geocode ue (some event_name)
  let queries :=
    (if venue_address ≠ "" then [(venue_address, "venue_address")] else []) ++
    (if prefecture ≠ "" ∨ city ≠ "" ∨ venue_name ≠ "" then
      [(prefecture ++ city ++ venue_name, "pref_city_venue")] else []) ++
    (if prefecture ≠ "" ∧ venue_name ≠ "" then
      [(prefecture ++ venue_name, "pref_venue")] else []) ++
    (if city ≠ "" ∧ venue_name ≠ "" then
      [(city ++ venue_name, "city_venue")] else []) ++
    (if venue_name ≠ "" then [(venue_name, "venue_name")] else []) ++
    (if prefecture ≠ "" ∧ event_name ≠ "" then
      [(prefecture ++ event_name, "pref_event_name")] else []) ++
    (if event_name_norm ≠ "" ∧ prefecture ≠ "" then
      [(prefecture ++ event_name_norm, "pref_event_name_normalized")] else []) ++
    (if event_name_norm ≠ "" then
      [(event_name_norm, "event_name_normalized")] else []) ++
    (if event_name ≠ "" then [(event_name, "event_name")] else [])
  filterQueries ue queries

/-- `_build_overlap_repair_queries(row)`. -/
def build_overlap_repair_queries (ue : String → String) (m : MergedRow) :
    List (String × String) :=
  let prefecture := cleanOpt ue m.prefecture
  let city := cleanOpt ue m.city
  let venue_name := cleanOpt ue m.venue_name
  let venue_address := cleanOpt ue m.venue_address
  let event_name := cleanOpt ue m.event_name
  let event_name_norm := normalize_event_name_for_geocode ue (some event_name)
  let queries :=
    (if prefecture ≠ "" ∨ city ≠ "" ∨ venue_name ≠ "" ∨ venue_address ≠ "" then
      [(prefecture ++ city ++ venue_name ++ venue_address,
        "repair_pref_city_venue_address")] else []) ++
    (if prefecture ≠ "" ∧ city ≠ "" ∧ event_name_norm ≠ "" then
      [(prefecture ++ city ++ event_name_norm,
        "repair_pref_city_event_name_normalized")] else []) ++
    (if prefecture ≠ "" ∧ event_name_norm ≠ "" ∧ venue_name ≠ "" then
      [(prefecture ++ event_name_norm ++ venue_name,
        "repair_pref_event_name_venue")] else []) ++
    (if prefecture ≠ "" ∧ event_name ≠ "" then
      [(prefecture ++ event_name, "repair_pref_event_name_raw")] else []) ++
    (if event_name_norm ≠ "" ∧ venue_name ≠ "" then
      [(event_name_norm ++ venue_name, "repair_event_name_venue")] else []) ++
    (if venue_address ≠ "" ∧ event_name_norm ≠ "" then
      [(venue_address ++ event_name_norm, "repair_venue_address_event_name")] else []) ++
    (if venue_address ≠ "" then
      [(venue_address, "repair_venue_address_only")] else []) ++
    (if prefecture ≠ "" ∧ venue_name ≠ "" then
      [(prefecture ++ venue_name, "repair_pref_venue")] else []) ++
    (if event_name_norm ≠ "" then
      [(event_name_norm, "repair_event_name_normalized")] else []) ++
    (if event_name ≠ "" then [(event_name, "repair_event_name_raw")] else [])
  filterQueries ue queries

/-- `LOW_CONFIDENCE_GEO_SOURCES` plus the `network_geocode*` family
(`_is_low_confidence_geo_source`; empty text is low-confidence too). -/
def is_low_confidence_geo_source (ue : String → String) (source : String) : Bool :=
  let text := cleanStr ue source
  if text = "" then true
  else text ∈ ["missing", "pref_center_fallback"] ||
    decide ("network_geocode".data <+: text.data)

/-- `COORD_EPSILON`. -/
def COORD_EPSILON : ℚ := 1 / 1000000

/-- `PREFECTURE_CENTER`. -/
def PREFECTURE_CENTER : List (String × ℚ × ℚ) :=
  [("北海道", 43.06417, 141.34694), ("青森県", 40.82444, 140.74),
   ("岩手県", 39.70361, 141.1525), ("宮城県", 38.26889, 140.87194),
   ("秋田県", 39.71861, 140.1025), ("山形県", 38.24056, 140.36333),
   ("福島県", 37.75, 140.46778), ("茨城県", 36.34139, 140.44667),
   ("栃木県", 36.56583, 139.88361), ("群馬県", 36.39111, 139.06083),
   ("埼玉県", 35.85694, 139.64889), ("千葉県", 35.60472, 140.12333),
   ("東京都", 35.68944, 139.69167), ("神奈川県", 35.44778, 139.6425),
   ("新潟県", 37.90222, 139.02361), ("富山県", 36.69528, 137.21139),
   ("石川県", 36.59444, 136.62556), ("福井県", 36.06528, 136.22194),
   ("山梨県", 35.66389, 138.56833), ("長野県", 36.65139, 138.18111),
   ("岐阜県", 35.39111, 136.72222), ("静岡県", 34.97694, 138.38306),
   ("愛知県", 35.18028, 136.90667), ("三重県", 34.73028, 136.50861),
   ("滋賀県", 35.00444, 135.86833), ("京都府", 35.02139, 135.75556),
   ("大阪府", 34.68639, 135.52), ("兵庫県", 34.69139, 135.18306),
   ("奈良県", 34.68528, 135.83278), ("和歌山県", 34.22611, 135.1675),
   ("鳥取県", 35.50361, 134.23833), ("島根県", 35.47222, 133.05056),
   ("岡山県", 34.66167, 133.935), ("広島県", 34.39639, 132.45944),
   ("山口県", 34.18583, 131.47139), ("徳島県", 34.06583, 134.55944),
   ("香川県", 34.34028, 134.04333), ("愛媛県", 33.84167, 132.76611),
   ("高知県", 33.55972, 133.53111), ("福岡県", 33.60639, 130.41806),
   ("佐賀県", 33.24944, 130.29889), ("長崎県", 32.74472, 129.87361),
   ("熊本県", 32.78972, 130.74167), ("大分県", 33.23806, 131.6125),
   ("宮崎県", 31.91111, 131.42389), ("鹿児島県", 31.56028, 130.55806),
   ("沖縄県", 26.2125, 127.68111)]

/-- `_resolve_prefecture_center(row)`: the cleaned `prefecture` field,
else the prefecture extracted from address/venue/name; `none` for a
prefecture outside the table (no Tokyo-Station collapse). -/
def resolve_prefecture_center (ue : String → String) (m : MergedRow) :
    Option (ℚ × ℚ) :=
  let pref := cleanOpt ue m.prefecture
  let pref := if pref = "" then
    extract_pref ue (pyOrOpt m.venue_address (pyOrOpt m.venue_name m.event_name))
    else pref
  ((PREFECTURE_CENTER.find? (fun p => p.1 = pref)).map (fun p => p.2))

end Fusion

namespace Fusion

/-- `MISSING_TOKENS`. -/
def MISSING_TOKENS : List String :=
  ["", "-", "--", "---", "na", "n/a", "none", "null", "nan",
   "不明", "未定", "非公表", "調査中"]

/-- `UNCERTAIN_HINTS`. -/
def UNCERTAIN_HINTS : List String :=
  ["未定", "調査中", "確認中", "未発表", "未公表", "未確定", "予定",
   "見込み", "予測", "頃"]

/-- `HANABI_INCOMPLETE_CHECK_FIELDS`. -/
def HANABI_INCOMPLETE_CHECK_FIELDS : List String :=
  ["launch_count", "event_time_start", "event_date_start", "venue_name",
   "venue_address"]

/-- `_is_missing_like(value)` on cleaned text. -/
def is_missing_like (text : String) : Bool :=
  text = "" || Py.lower text ∈ MISSING_TOKENS || text ∈ MISSING_TOKENS

/-- `re.search(r"\d{1,2}:\d{2}", text)` existence. -/
def timeColonAt (cs : List Char) : Bool :=
  match cs with
  | d1 :: rest =>
    Py.isDigit d1 &&
      ((match rest with
        | d2 :: ':' :: a :: b :: _ => Py.isDigit d2 && Py.isDigit a && Py.isDigit b
        | _ => false) ||
       (match rest with
        | ':' :: a :: b :: _ => Py.isDigit a && Py.isDigit b
        | _ => false))
  | [] => false

/-- `re.search(r"\d{1,2}時", text)` existence. -/
def timeKanjiAt (cs : List Char) : Bool :=
  match cs with
  | d1 :: rest =>
    Py.isDigit d1 &&
      ((match rest with
        | d2 :: '時' :: _ => Py.isDigit d2
        | _ => false) ||
       (match rest with
        | '時' :: _ => true
        | _ => false))
  | [] => false

/-- Existence of a pattern at any suffix (`re.search`). -/
def scanAny (p : List Char → Bool) : List Char → Bool
  | [] => p []
  | c :: rest => p (c :: rest) || scanAny p rest

/-- `_field_incomplete_reason(field, value)`. -/
def field_incomplete_reason (ue : String → String) (field : String)
    (value : Option String) : String :=
  let text := match value with
    | none => ""
    | some v => cleanStr ue v
  if is_missing_like text then "missing"
  else if UNCERTAIN_HINTS.any (fun hint => Py.contains text hint) then "uncertain"
  else if field = "launch_count" && !(text.data.any Py.isDigit) then "missing_numeric"
  else if field = "event_time_start" &&
      !(scanAny timeColonAt text.data) && !(scanAny timeKanjiAt text.data) then
    "unparsed_time"
  else ""

/-- The merged row's own fields, for the incompleteness pass. -/
def MergedRow.getField (m : MergedRow) : String → Option String
  | "launch_count" => m.launch_count
  | "event_time_start" => m.event_time_start
  | "event_date_start" => m.event_date_start
  | "venue_name" => m.venue_name
  | "venue_address" => m.venue_address
  | _ => none

/-- `_compute_incomplete_tags(row, fields)`: the `field:reason` tags and
the update priority. -/
def compute_incomplete_tags (ue : String → String) (m : MergedRow)
    (fields : List String) : List String × String :=
  let pairs := fields.filterMap (fun field =>
    let reason := field_incomplete_reason ue field (m.getField field)
    if reason = "" then none else some (field, s!"{field}:{reason}"))
  let tags := pairs.map (·.2)
  let missing_field_names := pairs.map (·.1)
  if missing_field_names = [] then (tags, "none")
  else if "launch_count" ∈ missing_field_names ∨
      "event_time_start" ∈ missing_field_names then (tags, "high")
  else if "event_date_start" ∈ missing_field_names ∨
      "venue_name" ∈ missing_field_names then (tags, "medium")
  else (tags, "low")

/-- The per-field winner of the voting loop (strict improvement, first
member wins ties). -/
def vote_field (ue : String → String) (field : String)
    (members : List RawRow) : Option String :=
  (members.foldl (fun acc m =>
    let score := score_value ue field (m.get field) m.source_site
    if score > acc.2 then (m.get field, score) else acc)
    ((none : Option String), (-1 : Int))).1

/-- The first `ok`/`cached_ok` geocoder hit with both coordinates, over
the query list in order (the `for query, query_strategy in queries`
loop with its `break`). -/
def geocodeResolve (g : String → GeoResp) :
    List (String × String) → Option (ℚ × ℚ × String × String)
  | [] => none
  | (q, strategy) :: rest =>
    let resp := g q
    match (resp.status = "ok" ∨ resp.status = "cached_ok" : Bool), resp.lat, resp.lng with
    | true, some la, some lo => some (la, lo, strategy, resp.status)
    | _, _, _ => geocodeResolve g rest

/-- The `geo_source` tag of a successful network geocode. -/
def networkGeoSource (strategy status : String) : String :=
  let src := if Py.contains strategy "event_name" then "network_geocode_title"
    else "network_geocode"
  if status = "cached_ok" then src ++ "_cache" else src

/-- The coordinate-resolution ladder of the fusion loop (lines
748–849): keep parsed source coordinates (`source_exact`); else the
first geocoder hit (`network_geocode*`); else the prefecture center
(`pref_center_fallback`); else `missing` with empty coordinates.  The
geocoder-disabled branch re-checks `lat is not None and lng is not
None`, which is unreachable there, and then falls through to the same
two fallbacks. -/
def resolveGeo (ue : String → String) (geocoder : Option (String → GeoResp))
    (merged0 : MergedRow) : Option ℚ → Option ℚ → MergedRow
  | some la, some lo =>
    { merged0 with
      lat := some la
      lng := some lo
      geo_source := "source_exact" }
  | la?, lo? =>
    match geocoder with
    | some g =>
      match geocodeResolve g (build_geocode_queries ue merged0) with
      | some (la, lo, strategy, status) =>
        { merged0 with
          lat := some la
          lng := some lo
          geo_source := networkGeoSource strategy status }
      | none =>
        match resolve_prefecture_center ue merged0 with
        | some (a, b) =>
          { merged0 with
            lat := some a
            lng := some b
            geo_source := "pref_center_fallback" }
        | none =>
          { merged0 with
            lat := none
            lng := none
            geo_source := "missing" }
    | none =>
      let _ := (la?, lo?)
      match resolve_prefecture_center ue merged0 with
      | some (a, b) =>
        { merged0 with
          lat := some a
          lng := some b
          geo_source := "pref_center_fallback" }
      | none =>
        { merged0 with
          lat := none
          lng := none
          geo_source := "missing" }

/-- One iteration of the canonical-event construction loop of
`fuse_records` (lines 724–876): identity fields, per-field voting, the
coordinate resolution ladder and the incompleteness tagging.  The
diagnostic log rows the loop also appends are not modelled (they do not
feed back into the fused row). -/
def fuse_group (ue : String → String) (geocoder : Option (String → GeoResp))
    (canonical_id dedup_key fused_at : String) (members : List RawRow) :
    MergedRow :=
  let source_sites := Py.pySorted (dedupList
    (members.filterMap (fun m => if m.source_site ≠ "" then some m.source_site else none)))
  let source_urls := Py.pySorted (dedupList
    (members.filterMap (fun m =>
      match m.source_url with
      | some u => if u ≠ "" then some u else none
      | none => none)))
  let event_year := ((members.find? (fun m => m.event_year_tag ≠ "")).map
    (fun m => m.event_year_tag)).getD ""
  let vLat := vote_field ue "lat" members
  let vLng := vote_field ue "lng" members
  let merged0 : MergedRow :=
    { canonical_id := canonical_id
      dedup_key := dedup_key
      event_year := event_year
      geo_source := ""
      source_sites := source_sites
      source_urls := source_urls
      source_count := members.length
      fused_at := fused_at
      event_name := vote_field ue "event_name" members
      event_date_start := vote_field ue "event_date_start" members
      event_date_end := vote_field ue "event_date_end" members
      event_time_start := vote_field ue "event_time_start" members
      event_time_end := vote_field ue "event_time_end" members
      venue_name := vote_field ue "venue_name" members
      venue_address := vote_field ue "venue_address" members
      prefecture := vote_field ue "prefecture" members
      city := vote_field ue "city" members
      lat := none
      lng := none
      launch_count := vote_field ue "launch_count" members
      launch_scale := vote_field ue "launch_scale" members
      paid_seat := vote_field ue "paid_seat" members
      access_text := vote_field ue "access_text" members
      parking_text := vote_field ue "parking_text" members
      traffic_control_text := vote_field ue "traffic_control_text" members
      rainout_policy := vote_field ue "rainout_policy" members
      contact := vote_field ue "contact" members
      weather_summary := vote_field ue "weather_summary" members }
  let geoDone : MergedRow :=
    resolveGeo ue geocoder merged0 (to_coord ue vLat) (to_coord ue vLng)
  let tagsP := compute_incomplete_tags ue geoDone HANABI_INCOMPLETE_CHECK_FIELDS
  { geoDone with
    is_info_incomplete := if tagsP.1 ≠ [] then "1" else "0"
    incomplete_field_count := toString tagsP.1.length
    incomplete_fields := String.intercalate "|" tagsP.1
    update_priority := tagsP.2 }

end Fusion

namespace Fusion

/-- Python `round(x, 6)` over exact rationals (round half to even). -/
def roundHalfEven (q : ℚ) : Int :=
  let f := ⌊q⌋
  let r := q - f
  if r < 1 / 2 then f
  else if r > 1 / 2 then f + 1
  else if f % 2 = 0 then f else f + 1

/-- `round(x, 6)`. -/
def pyRound6 (q : ℚ) : ℚ := (roundHalfEven (q * 1000000) : ℚ) / 1000000

/-- The rounded coordinate key a fused row is grouped under (`none`
when `_to_coord` fails on either coordinate; a float field passes
`_to_coord` unchanged). -/
def coordKey (m : MergedRow) : Option (ℚ × ℚ) :=
  match m.lat, m.lng with
  | some la, some lo => some (pyRound6 la, pyRound6 lo)
  | _, _ => none

/-- The repair-query loop of `_repair_overlap_coordinates` (lines
335–373): first response with status `ok`/`cached_ok`, both
coordinates present, and a point that moved by more than
`COORD_EPSILON` in at least one axis. -/
def repairAccept (g : String → GeoResp) (old_lat old_lng : ℚ) :
    List (String × String) → Option (ℚ × ℚ × String × String)
  | [] => none
  | (q, strategy) :: rest =>
    let resp := g q
    match (resp.status = "ok" ∨ resp.status = "cached_ok" : Bool), resp.lat, resp.lng with
    | true, some la, some lo =>
      if |la - old_lat| ≤ COORD_EPSILON ∧ |lo - old_lng| ≤ COORD_EPSILON then
        repairAccept g old_lat old_lng rest
      else some (la, lo, strategy, resp.status)
    | _, _, _ => repairAccept g old_lat old_lng rest

/-- The `geo_source` tag written on a successful overlap repair. -/
def repairGeoSource (strategy status : String) : String :=
  let src := if Py.contains strategy "event_name" then
    "network_geocode_overlap_repair_title" else "network_geocode_overlap_repair"
  if status = "cached_ok" then src ++ "_cache" else src

/-- The rewrite a repaired member receives. -/
def repairUpdate (ue : String → String) (g : String → GeoResp)
    (old_lat old_lng : ℚ) (row : MergedRow) : MergedRow :=
  match repairAccept g old_lat old_lng (build_overlap_repair_queries ue row) with
  | none => row
  | some (la, lo, strategy, status) =>
    { row with
      lat := some la
      lng := some lo
      geo_source := repairGeoSource strategy status }

/-- The flattened `(old_lat, old_lng, row_index, row)` work list of the
suspicious groups: fused rows grouped by rounded coordinates in
first-occurrence key order, keeping groups of two or more members whose
`geo_source` values are all low-confidence. -/
def suspiciousItems (ue : String → String) (rows : List MergedRow) :
    List (ℚ × ℚ × Nat × MergedRow) :=
  let keyedAll := rows.enum.filterMap
    (fun p => (coordKey p.2).map (fun k => (k, p.1, p.2)))
  let keys := dedupList (keyedAll.map (·.1))
  let suspicious := keys.filter (fun k =>
    let members := keyedAll.filter (fun e => e.1 = k)
    2 ≤ members.length ∧
      members.all (fun e => is_low_confidence_geo_source ue e.2.2.geo_source))
  (suspicious.map (fun k =>
    (keyedAll.filter (fun e => e.1 = k)).map
      (fun e => (k.1, k.2, e.2.1, e.2.2)))).flatten

/-- The mutation loop over suspicious members (`fused_rows[row_index] = …`). -/
def repairFold (ue : String → String) (g : String → GeoResp)
    (items : List (ℚ × ℚ × Nat × MergedRow)) (arr : List MergedRow) :
    List MergedRow :=
  items.foldl (fun a p =>
    match repairAccept g p.1 p.2.1 (build_overlap_repair_queries ue p.2.2.2) with
    | none => a
    | some (la, lo, strategy, status) =>
      a.set p.2.2.1
        { p.2.2.2 with
          lat := some la
          lng := some lo
          geo_source := repairGeoSource strategy status }) arr

/-- `_repair_overlap_coordinates(fused_rows, geocoder, run_id)` — the
coordinate rewrites (the log rows and counters the source also builds
are not modelled; they do not feed back into the fused rows). -/
def repair_overlap_coordinates (ue : String → String)
    (geocoder : Option (String → GeoResp)) (rows : List MergedRow) :
    List MergedRow :=
  match geocoder with
  | none => rows
  | some g => repairFold ue g (suspiciousItems ue rows) rows

/-- A raw input line's parse outcome (`json.loads` of the standard
library, modelled as a parameter: `none` stands for a raised
`JSONDecodeError`).  A parsed object is reduced to the one key
`_load_rows` touches (`source_site`) plus an opaque payload. -/
structure RawObj where
  source_site : Option String
  payload : String
deriving DecidableEq

/-- `_load_rows(raw_dir, site_ids)`: for each site id, read
`<raw_dir>/<site>.jsonl` when it exists (a missing file is skipped
silently), strip each line, skip blank lines, parse the rest — with no
handler around the parse, so one bad line raises out of the stage —
and default `source_site` to the site id. -/
def load_rows (jsonParse : String → Option RawObj)
    (fs : String → Option (List String)) :
    List String → Except String (List RawObj)
  | [] => Except.ok []
  | site :: sites =>
    match fs site with
    | none => load_rows jsonParse fs sites
    | some lines => do
      let rows ← loadFile jsonParse site lines
      let rest ← load_rows jsonParse fs sites
      Except.ok (rows ++ rest)
where
  loadFile (jsonParse : String → Option RawObj) (site : String) :
      List String → Except String (List RawObj)
    | [] => Except.ok []
    | line :: lines => do
      let stripped := Py.strip line
      if stripped = "" then loadFile jsonParse site lines
      else
        match jsonParse stripped with
        | none => Except.error "json.decoder.JSONDecodeError"
        | some obj =>
          let obj := if obj.source_site.isNone then
            { obj with source_site := some site } else obj
          let rest ← loadFile jsonParse site lines
          Except.ok (obj :: rest)

end Fusion

namespace Fusion

/-- A parse function for the counterexample: every line parses except
the malformed `"{bad"`. -/
def parseCx (s : String) : Option RawObj :=
  if s = "\x7bbad" then none else some ⟨none, s⟩

/-- A raw store for the counterexample: `siteA.jsonl` holds one good
line and one malformed line; no other site file exists. -/
def fsCx (site : String) : Option (List String) :=
  if site = "siteA" then some ["\x7b\"x\":1\x7d", "\x7bbad"] else none

/-- Counterexample to C5 as stated: a single malformed raw line makes
`_load_rows` raise (`json.loads` is unguarded), aborting the stage
instead of being skipped and counted. -/
theorem C5_parse_failure_counterexample :
    load_rows parseCx fsCx ["siteA", "siteB"] =
      Except.error "json.decoder.JSONDecodeError" := rfl

theorem loadFile_ok (parse : String → Option RawObj) (site : String) :
    ∀ (file : List String),
    (∀ line ∈ file, Py.strip line = "" ∨ (parse (Py.strip line)).isSome) →
    ∃ fr, load_rows.loadFile parse site file = Except.ok fr ∧
      ∀ r ∈ fr, r.source_site.isSome := by
  intro file
  induction file with
  | nil => exact fun _ => ⟨[], rfl, by simp⟩
  | cons line lines ih =>
    intro hfile
    obtain ⟨fr', hfr', hs'⟩ := ih (fun l hl => hfile l (List.mem_cons_of_mem _ hl))
    by_cases hs : Py.strip line = ""
    · refine ⟨fr', ?_, hs'⟩
      unfold load_rows.loadFile
      rw [if_pos hs, hfr']
    · rcases hfile line (List.mem_cons_self _ _) with hblank | hparse
      · exact absurd hblank hs
      · rcases hp : parse (Py.strip line) with _ | obj
        · rw [hp] at hparse
          simp at hparse
        · refine ⟨(if obj.source_site.isNone then
            { obj with source_site := some site } else obj) :: fr', ?_, ?_⟩
          · unfold load_rows.loadFile
            rw [if_neg hs, hp, hfr']
            rfl
          · intro r hr
            rcases List.mem_cons.mp hr with hr | hr
            · subst hr
              rcases hobj : obj.source_site with _ | v
              · simp [hobj]
              · simp [hobj]
            · exact hs' r hr

theorem loadFile_err (parse : String → Option RawObj) (site : String) :
    ∀ (file : List String),
    (∃ line ∈ file, Py.strip line ≠ "" ∧ parse (Py.strip line) = none) →
    ∃ msg, load_rows.loadFile parse site file = Except.error msg := by
  intro file
  induction file with
  | nil => rintro ⟨l, hl, -⟩; exact absurd hl (List.not_mem_nil l)
  | cons line lines ih =>
    rintro ⟨l, hl, hne, hnone⟩
    rcases List.mem_cons.mp hl with rfl | hl
    · refine ⟨"json.decoder.JSONDecodeError", ?_⟩
      unfold load_rows.loadFile
      rw [if_neg hne, hnone]
    · by_cases hs : Py.strip line = ""
      · obtain ⟨msg, hmsg⟩ := ih ⟨l, hl, hne, hnone⟩
        refine ⟨msg, ?_⟩
        unfold load_rows.loadFile
        rw [if_pos hs, hmsg]
      · rcases hp : parse (Py.strip line) with _ | obj
        · refine ⟨"json.decoder.JSONDecodeError", ?_⟩
          unfold load_rows.loadFile
          rw [if_neg hs, hp]
        · obtain ⟨msg, hmsg⟩ := ih ⟨l, hl, hne, hnone⟩
          refine ⟨msg, ?_⟩
          unfold load_rows.loadFile
          rw [if_neg hs, hp, hmsg]
          rfl

/-- C5 (amended): a missing site file is silently skipped and blank
lines are skipped; when every nonblank stripped line of every present
file parses, the stage succeeds and every loaded row carries a
`source_site`; but a raw line that fails to parse as JSON raises out of
`_load_rows` (no per-line skip, no counter), aborting the stage. -/
theorem C5_load_rows_amended :
    (∀ (parse : String → Option RawObj) (fs : String → Option (List String))
        (site : String) (sites : List String), fs site = none →
      load_rows parse fs (site :: sites) = load_rows parse fs sites) ∧
    (∀ (parse : String → Option RawObj) (fs : String → Option (List String))
        (sites : List String),
      (∀ site ∈ sites, ∀ file, fs site = some file → ∀ line ∈ file,
        Py.strip line = "" ∨ (parse (Py.strip line)).isSome) →
      ∃ rows, load_rows parse fs sites = Except.ok rows ∧
        ∀ r ∈ rows, r.source_site.isSome) ∧
    (∀ (parse : String → Option RawObj) (fs : String → Option (List String))
        (sites : List String),
      (∃ site ∈ sites, ∃ file, fs site = some file ∧ ∃ line ∈ file,
        Py.strip line ≠ "" ∧ parse (Py.strip line) = none) →
      ∃ msg, load_rows parse fs sites = Except.error msg) := by
  refine ⟨?_, ?_, ?_⟩
  · intro parse fs site sites hmiss
    show (match fs site with
      | none => load_rows parse fs sites
      | some lines => do
          let rows ← load_rows.loadFile parse site lines
          let rest ← load_rows parse fs sites
          Except.ok (rows ++ rest)) = load_rows parse fs sites
    rw [hmiss]
  · intro parse fs sites hok
    induction sites with
    | nil => exact ⟨[], rfl, by simp⟩
    | cons site rest ih =>
      obtain ⟨rows', hrows', hsite'⟩ := ih (fun s hs => hok s (List.mem_cons_of_mem _ hs))
      cases hfs : fs site with
      | none =>
        refine ⟨rows', ?_, hsite'⟩
        unfold load_rows
        rw [hfs]
        exact hrows'
      | some file =>
        obtain ⟨fr, hfr, hfrsite⟩ := loadFile_ok parse site file
          (fun line hl => hok site (List.mem_cons_self _ _) file hfs line hl)
        refine ⟨fr ++ rows', ?_, ?_⟩
        · unfold load_rows
          rw [hfs]
          simp only [bind, Except.bind, hfr, hrows']
        · intro r hr
          rcases List.mem_append.mp hr with hr | hr
          · exact hfrsite r hr
          · exact hsite' r hr
  · intro parse fs sites hbad
    induction sites with
    | nil =>
      obtain ⟨s, hs, -⟩ := hbad
      exact absurd hs (List.not_mem_nil s)
    | cons site rest ih =>
      obtain ⟨s, hs, file, hfs, bad⟩ := hbad
      rcases List.mem_cons.mp hs with rfl | hsrest
      · obtain ⟨msg, hmsg⟩ := loadFile_err parse s file bad
        refine ⟨msg, ?_⟩
        unfold load_rows
        rw [hfs]
        simp only [bind, Except.bind, hmsg]
      · obtain ⟨msg, hmsg⟩ := ih ⟨s, hsrest, file, hfs, bad⟩
        cases hfs2 : fs site with
        | none =>
          refine ⟨msg, ?_⟩
          unfold load_rows
          rw [hfs2]
          exact hmsg
        | some file2 =>
          cases hlf : load_rows.loadFile parse site file2 with
          | error e =>
            refine ⟨e, ?_⟩
            unfold load_rows
            rw [hfs2]
            simp only [bind, Except.bind, hlf]
          | ok fr =>
            refine ⟨msg, ?_⟩
            unfold load_rows
            rw [hfs2]
            simp only [bind, Except.bind, hlf, hmsg]

/-- Witness for C5's amended theorem at concrete inputs. -/
theorem C5_load_rows_amended_witness :
    (fsCx "siteB" = none) ∧
    load_rows parseCx fsCx ["siteB", "siteC"] = load_rows parseCx fsCx ["siteC"] ∧
    (∃ rows, load_rows parseCx fsCx ["siteC"] = Except.ok rows ∧
      ∀ r ∈ rows, r.source_site.isSome) ∧
    (∃ msg, load_rows parseCx fsCx ["siteA"] = Except.error msg) :=
  ⟨rfl,
    C5_load_rows_amended.1 parseCx fsCx "siteB" ["siteC"] rfl,
    C5_load_rows_amended.2.1 parseCx fsCx ["siteC"] (by decide),
    C5_load_rows_amended.2.2 parseCx fsCx ["siteA"]
      ⟨"siteA", by decide, ["\x7b\"x\":1\x7d", "\x7bbad"], by decide,
        "\x7bbad", by decide, by decide, by decide⟩⟩

end Fusion

namespace Fusion

/-- A geocoder stub that never resolves. -/
def gNo : String → GeoResp := fun q => ⟨"no_result", q, none, none, "", "", false⟩

/-- Counterexample member: a high-weight site carrying unparseable
coordinate text. -/
def m1cx : RawRow :=
  { source_site := "hanabi_cloud", source_url := none, event_name := none,
    event_date_start := none, event_date_end := none, event_time_start := none,
    event_time_end := none, venue_name := none, venue_address := none,
    prefecture := none, city := none, lat := some "不明", lng := some "不明",
    launch_count := none, launch_scale := none, paid_seat := none,
    access_text := none, parking_text := none, traffic_control_text := none,
    rainout_policy := none, contact := none, weather_summary := none }

/-- Counterexample member: a low-weight site carrying parseable
coordinates. -/
def m2cx : RawRow :=
  { m1cx with source_site := "hanabeam", lat := some "35.6", lng := some "139.7" }

/-- Counterexample to C3 as stated: the high-weight site's unparseable
`lat`/`lng` win the field vote, so the fused event is not
`source_exact` even though a member row carried parseable numeric
coordinates — the claimed "iff at least one member had parseable
lat/lng" fails in the right-to-left direction. -/
theorem C3_geo_source_exact_counterexample :
    ¬ (((fuse_group id (some gNo) "E000001" "k" "t" [m1cx, m2cx]).geo_source =
        "source_exact") ↔
      ∃ m ∈ [m1cx, m2cx],
        (to_coord id m.lat).isSome ∧ (to_coord id m.lng).isSome) := by
  decide

theorem networkGeoSource_ne_source_exact (s t : String) :
    networkGeoSource s t ≠ "source_exact" := by
  unfold networkGeoSource
  split_ifs <;> decide

theorem networkGeoSource_ne_missing (s t : String) :
    networkGeoSource s t ≠ "missing" := by
  unfold networkGeoSource
  split_ifs <;> decide

theorem repairGeoSource_ne_missing (s t : String) :
    repairGeoSource s t ≠ "missing" := by
  unfold repairGeoSource
  split_ifs <;> decide

theorem resolveGeo_source_exact_iff (ue : String → String)
    (geocoder : Option (String → GeoResp)) (m0 : MergedRow)
    (la? lo? : Option ℚ) :
    ((resolveGeo ue geocoder m0 la? lo?).geo_source = "source_exact") ↔
      la?.isSome ∧ lo?.isSome := by
  rcases la? with _ | la <;> rcases lo? with _ | lo <;>
    simp only [resolveGeo] <;>
    [skip; skip; skip; simp] <;>
  · rcases geocoder with _ | g
    · rcases hp : resolve_prefecture_center ue m0 with _ | ⟨a, b⟩ <;>
        simp [hp]
    · rcases hr : geocodeResolve g (build_geocode_queries ue m0) with
        _ | ⟨a, b, strategy, status⟩
      · rcases hp : resolve_prefecture_center ue m0 with _ | ⟨a, b⟩ <;>
          simp [hr, hp]
      · simp [hr, networkGeoSource_ne_source_exact]

theorem resolveGeo_missing_empty (ue : String → String)
    (geocoder : Option (String → GeoResp)) (m0 : MergedRow)
    (la? lo? : Option ℚ)
    (h : (resolveGeo ue geocoder m0 la? lo?).geo_source = "missing") :
    (resolveGeo ue geocoder m0 la? lo?).lat = none ∧
      (resolveGeo ue geocoder m0 la? lo?).lng = none := by
  rcases la? with _ | la <;> rcases lo? with _ | lo <;>
    simp only [resolveGeo] at h ⊢ <;>
    [skip; skip; skip; simp at h] <;>
  · rcases geocoder with _ | g
    · rcases hp : resolve_prefecture_center ue m0 with _ | ⟨a, b⟩ <;>
        simp [hp] at h ⊢
    · rcases hr : geocodeResolve g (build_geocode_queries ue m0) with
        _ | ⟨a, b, strategy, status⟩
      · rcases hp : resolve_prefecture_center ue m0 with _ | ⟨a, b⟩ <;>
          simp [hr, hp] at h ⊢
      · simp [hr, networkGeoSource_ne_missing] at h

theorem fuse_group_resolveGeo (ue : String → String)
    (geocoder : Option (String → GeoResp)) (cid key fat : String)
    (members : List RawRow) :
    ∃ m0 : MergedRow,
      (fuse_group ue geocoder cid key fat members).geo_source =
        (resolveGeo ue geocoder m0 (to_coord ue (vote_field ue "lat" members))
          (to_coord ue (vote_field ue "lng" members))).geo_source ∧
      (fuse_group ue geocoder cid key fat members).lat =
        (resolveGeo ue geocoder m0 (to_coord ue (vote_field ue "lat" members))
          (to_coord ue (vote_field ue "lng" members))).lat ∧
      (fuse_group ue geocoder cid key fat members).lng =
        (resolveGeo ue geocoder m0 (to_coord ue (vote_field ue "lat" members))
          (to_coord ue (vote_field ue "lng" members))).lng :=
  ⟨_, rfl, rfl, rfl⟩

theorem mem_list_set {α : Type} (l : List α) (i : Nat) (v x : α)
    (h : x ∈ l.set i v) : x ∈ l ∨ x = v := by
  induction l generalizing i with
  | nil => simp at h
  | cons a rest ih =>
    cases i with
    | zero =>
      rcases List.mem_cons.mp h with h | h
      · exact Or.inr h
      · exact Or.inl (List.mem_cons_of_mem _ h)
    | succ j =>
      rcases List.mem_cons.mp h with h | h
      · exact Or.inl (h ▸ List.mem_cons_self _ _)
      · rcases ih j h with h | h
        · exact Or.inl (List.mem_cons_of_mem _ h)
        · exact Or.inr h

set_option maxHeartbeats 1000000 in
theorem mem_repairFold (ue : String → String) (g : String → GeoResp) :
    ∀ (items : List (ℚ × ℚ × Nat × MergedRow)) (arr : List MergedRow)
      (x : MergedRow), x ∈ repairFold ue g items arr →
      x ∈ arr ∨ ∃ (la lo : ℚ) (strategy status : String)
        (row : MergedRow),
        x = { row with
          lat := some la
          lng := some lo
          geo_source := repairGeoSource strategy status } := by
  intro items
  induction items with
  | nil => exact fun arr x h => Or.inl h
  | cons p rest ih =>
    intro arr x h
    unfold repairFold at h
    simp only [List.foldl_cons] at h
    rcases hacc : repairAccept g p.1 p.2.1 (build_overlap_repair_queries ue p.2.2.2) with
      _ | ⟨la, lo, strategy, status⟩
    · rw [hacc] at h
      exact ih arr x h
    · rw [hacc] at h
      simp only [] at h
      rcases ih _ x h with hmem | hupd
      · rcases mem_list_set _ _ _ _ hmem with hmem | hmem
        · exact Or.inl hmem
        · exact Or.inr ⟨la, lo, strategy, status, p.2.2.2, hmem⟩
      · exact Or.inr hupd

/-- C3 (amended): the fused event is `source_exact` exactly when the
field-vote winning `lat` and `lng` values both parse as floats (the
counterexample shows "some member had parseable lat/lng" is not
equivalent); and `missing` implies empty coordinates, both at fuse time
and through overlap repair. -/
theorem C3_geo_source_soundness_amended (ue : String → String)
    (geocoder : Option (String → GeoResp)) (cid key fat : String)
    (members : List RawRow) :
    (((fuse_group ue geocoder cid key fat members).geo_source = "source_exact") ↔
      (to_coord ue (vote_field ue "lat" members)).isSome ∧
      (to_coord ue (vote_field ue "lng" members)).isSome) ∧
    ((fuse_group ue geocoder cid key fat members).geo_source = "missing" →
      (fuse_group ue geocoder cid key fat members).lat = none ∧
      (fuse_group ue geocoder cid key fat members).lng = none) ∧
    (∀ (g : Option (String → GeoResp)) (rows : List MergedRow),
      (∀ r ∈ rows, r.geo_source = "missing" → r.lat = none ∧ r.lng = none) →
      ∀ r ∈ repair_overlap_coordinates ue g rows,
        r.geo_source = "missing" → r.lat = none ∧ r.lng = none) := by
  obtain ⟨m0, hgs, hlat, hlng⟩ :=
    fuse_group_resolveGeo ue geocoder cid key fat members
  refine ⟨?_, ?_, ?_⟩
  · rw [hgs]
    exact resolveGeo_source_exact_iff ue geocoder m0 _ _
  · intro h
    rw [hgs] at h
    rw [hlat, hlng]
    exact resolveGeo_missing_empty ue geocoder m0 _ _ h
  · intro g rows hrows
    rcases g with _ | g
    · exact fun r hr => hrows r hr
    · intro r hr hmiss
      rcases mem_repairFold ue g (suspiciousItems ue rows) rows r
        (by simpa [repair_overlap_coordinates] using hr) with hmem | hupd
      · exact hrows r hmem hmiss
      · obtain ⟨la, lo, strategy, status, row, rfl⟩ := hupd
        exact absurd hmiss (repairGeoSource_ne_missing strategy status)

/-- C3 amended theorem instantiated on a concrete group: the one-member
group with parseable coordinates is `source_exact`, and the repair pass
on an empty row list preserves the missing-row invariant vacuously. -/
theorem C3_geo_source_soundness_amended_witness :
    (fuse_group id (some gNo) "E1" "k" "t" [m2cx]).geo_source =
      "source_exact" ∧
    (∀ r ∈ repair_overlap_coordinates id (some gNo) [], r.geo_source =
      "missing" → r.lat = none ∧ r.lng = none) :=
  ⟨((C3_geo_source_soundness_amended id (some gNo) "E1" "k" "t"
      [m2cx]).1).mpr (by decide),
   (C3_geo_source_soundness_amended id (some gNo) "E1" "k" "t"
      [m2cx]).2.2 (some gNo) [] (by simp)⟩

end Fusion

namespace Fusion

/-- Spec-side (C4): the `(index, row)` pairs of `rows` sharing the
rounded coordinate key `k`. -/
def keyMembers_spec (rows : List MergedRow) (k : ℚ × ℚ) :
    List (Nat × MergedRow) :=
  rows.enum.filter (fun p => coordKey p.2 = some k)

/-- Spec-side (C4): one repair query's acceptance test — status `ok` or
`cached_ok`, both coordinates present, and the point moved by more than
`COORD_EPSILON` in latitude or longitude. -/
def repairTry_spec (g : String → GeoResp) (ola olo : ℚ)
    (p : String × String) : Option (ℚ × ℚ × String × String) :=
  let resp := g p.1
  match resp.lat, resp.lng with
  | some la, some lo =>
    if (resp.status = "ok" ∨ resp.status = "cached_ok") ∧
        (COORD_EPSILON < |la - ola| ∨ COORD_EPSILON < |lo - olo|) then
      some (la, lo, p.2, resp.status)
    else none
  | _, _ => none

/-- Spec-side (C4): the first accepted repair result over the query
list, in order. -/
def repairAccept_spec (g : String → GeoResp) (ola olo : ℚ)
    (qs : List (String × String)) : Option (ℚ × ℚ × String × String) :=
  qs.findSome? (repairTry_spec g ola olo)

theorem mem_dedupListAux {α : Type} [DecidableEq α] (x : α) :
    ∀ (fuel : Nat) (l : List α), l.length ≤ fuel →
      (x ∈ dedupListAux fuel l ↔ x ∈ l) := by
  intro fuel
  induction fuel with
  | zero =>
    intro l hl
    rw [List.length_eq_zero.mp (Nat.le_zero.mp hl)]
    simp [dedupListAux]
  | succ n ih =>
    intro l hl
    match l with
    | [] => simp [dedupListAux]
    | y :: rest =>
      simp only [dedupListAux]
      by_cases hy : y ∈ rest
      · rw [if_pos hy]
        have hlen : (rest.filter (· ≠ y)).length ≤ n :=
          le_trans (List.length_filter_le _ _) (Nat.succ_le_succ_iff.mp (by simpa using hl))
        rw [List.mem_cons, ih _ hlen, List.mem_filter]
        by_cases hxy : x = y <;> simp [hxy]
      · rw [if_neg hy]
        have hlen : rest.length ≤ n := Nat.succ_le_succ_iff.mp (by simpa using hl)
        rw [List.mem_cons, ih _ hlen, List.mem_cons]

theorem nodup_dedupListAux {α : Type} [DecidableEq α] :
    ∀ (fuel : Nat) (l : List α), l.length ≤ fuel →
      (dedupListAux fuel l).Nodup := by
  intro fuel
  induction fuel with
  | zero => intro l _; simp [dedupListAux]
  | succ n ih =>
    intro l hl
    match l with
    | [] => simp [dedupListAux]
    | y :: rest =>
      simp only [dedupListAux]
      by_cases hy : y ∈ rest
      · rw [if_pos hy]
        have hlen : (rest.filter (· ≠ y)).length ≤ n :=
          le_trans (List.length_filter_le _ _) (Nat.succ_le_succ_iff.mp (by simpa using hl))
        refine List.nodup_cons.mpr ⟨?_, ih _ hlen⟩
        intro hmem
        have := List.mem_filter.mp ((mem_dedupListAux y _ _ hlen).mp hmem)
        simp at this
      · rw [if_neg hy]
        have hlen : rest.length ≤ n := Nat.succ_le_succ_iff.mp (by simpa using hl)
        refine List.nodup_cons.mpr ⟨?_, ih _ hlen⟩
        intro hmem
        exact hy ((mem_dedupListAux y _ _ hlen).mp hmem)

theorem mem_dedupList {α : Type} [DecidableEq α] (x : α) (l : List α) :
    x ∈ dedupList l ↔ x ∈ l :=
  mem_dedupListAux x l.length l le_rfl

theorem nodup_dedupList {α : Type} [DecidableEq α] (l : List α) :
    (dedupList l).Nodup :=
  nodup_dedupListAux l.length l le_rfl

theorem keyedAll_filter (l : List (Nat × MergedRow)) (k : ℚ × ℚ) :
    (l.filterMap (fun p => (coordKey p.2).map (fun k2 => (k2, p.1, p.2)))).filter
        (fun e => e.1 = k)
      = (l.filter (fun p => coordKey p.2 = some k)).map
          (fun p => (k, p.1, p.2)) := by
  induction l with
  | nil => rfl
  | cons a rest ih =>
    rcases hc : coordKey a.2 with _ | k2
    · simp [List.filterMap_cons, List.filter_cons, hc, ih]
    · by_cases hk : k2 = k
      · subst hk
        simp [List.filterMap_cons, List.filter_cons, hc, ih]
      · simp [List.filterMap_cons, List.filter_cons, hc, hk, ih]

end Fusion

namespace Fusion

theorem keyedAll_mem_key (rows : List MergedRow) (k : ℚ × ℚ) (i : Nat)
    (r : MergedRow) (hi : (i, r) ∈ keyMembers_spec rows k) :
    (k, i, r) ∈ rows.enum.filterMap
      (fun p => (coordKey p.2).map (fun k2 => (k2, p.1, p.2))) := by
  obtain ⟨hmem, hkey⟩ := List.mem_filter.mp hi
  exact List.mem_filterMap.mpr ⟨(i, r), hmem, by
    simp only [of_decide_eq_true hkey]; rfl⟩

theorem mem_suspiciousItems (ue : String → String) (rows : List MergedRow)
    (ola olo : ℚ) (i : Nat) (r : MergedRow) :
    (ola, olo, i, r) ∈ suspiciousItems ue rows ↔
      ((i, r) ∈ keyMembers_spec rows (ola, olo) ∧
       2 ≤ (keyMembers_spec rows (ola, olo)).length ∧
       ∀ p ∈ keyMembers_spec rows (ola, olo),
         is_low_confidence_geo_source ue p.2.geo_source = true) := by
  unfold suspiciousItems
  rw [List.mem_flatten]
  constructor
  · rintro ⟨s, hs, hx⟩
    obtain ⟨k, hk, rfl⟩ := List.mem_map.mp hs
    rw [keyedAll_filter, List.map_map] at hx
    obtain ⟨p, hp, heq⟩ := List.mem_map.mp hx
    obtain ⟨h1, h2, h3, h4⟩ : k.1 = ola ∧ k.2 = olo ∧ p.1 = i ∧ p.2 = r := by
      simpa [Prod.ext_iff] using heq
    have hkk : k = (ola, olo) := Prod.ext h1 h2
    subst hkk
    obtain ⟨hkeys, hpred⟩ := List.mem_filter.mp hk
    rw [decide_eq_true_eq, keyedAll_filter] at hpred
    obtain ⟨hlen, hall⟩ := hpred
    refine ⟨by rw [← h3, ← h4]; exact hp, by simpa using hlen, ?_⟩
    intro q hq
    rw [List.all_eq_true] at hall
    have := hall ((fun p => (((ola, olo) : ℚ × ℚ), p.1, p.2)) q)
      (List.mem_map_of_mem _ hq)
    simpa using this
  · rintro ⟨hmem, hlen, hall⟩
    refine ⟨((rows.enum.filterMap
        (fun p => (coordKey p.2).map (fun k2 => (k2, p.1, p.2)))).filter
        (fun e => e.1 = ((ola, olo) : ℚ × ℚ))).map
        (fun e => (((ola, olo) : ℚ × ℚ).1, ((ola, olo) : ℚ × ℚ).2, e.2.1, e.2.2)),
      List.mem_map.mpr ⟨((ola, olo) : ℚ × ℚ), ?_, rfl⟩, ?_⟩
    · refine List.mem_filter.mpr ⟨?_, ?_⟩
      · rw [mem_dedupList]
        exact List.mem_map.mpr ⟨((ola, olo), i, r), keyedAll_mem_key rows _ i r hmem, rfl⟩
      · rw [decide_eq_true_eq, keyedAll_filter]
        refine ⟨by simpa using hlen, ?_⟩
        rw [List.all_eq_true]
        intro e he
        obtain ⟨q, hq, rfl⟩ := List.mem_map.mp he
        simpa using hall q hq
    · rw [keyedAll_filter, List.map_map]
      exact List.mem_map.mpr ⟨(i, r), hmem, rfl⟩

end Fusion

namespace Fusion

theorem suspiciousItems_row (ue : String → String) (rows : List MergedRow)
    (p : ℚ × ℚ × Nat × MergedRow) (hp : p ∈ suspiciousItems ue rows) :
    rows[p.2.2.1]? = some p.2.2.2 := by
  obtain ⟨ola, olo, i, r⟩ := p
  have h := ((mem_suspiciousItems ue rows ola olo i r).mp hp).1
  exact List.mk_mem_enum_iff_getElem?.mp (List.mem_filter.mp h).1

theorem nodup_suspiciousItems_idx (ue : String → String)
    (rows : List MergedRow) :
    ((suspiciousItems ue rows).map (fun p => p.2.2.1)).Nodup := by
  unfold suspiciousItems
  rw [List.map_flatten, List.map_map]
  rw [List.nodup_flatten]
  constructor
  · intro l hl
    obtain ⟨k, hk, rfl⟩ := List.mem_map.mp hl
    simp only [Function.comp, keyedAll_filter, List.map_map]
    have hsub : ((rows.enum.filter
        (fun p => coordKey p.2 = some k)).map Prod.fst).Sublist
        (rows.enum.map Prod.fst) :=
      List.Sublist.map _ (List.filter_sublist _)
    have : ((rows.enum.filter
        (fun p => coordKey p.2 = some k)).map Prod.fst).Nodup := by
      refine List.Nodup.sublist hsub ?_
      rw [List.enum_map_fst]
      exact List.nodup_range _
    simpa [Function.comp] using this
  · refine List.pairwise_map.mpr ?_
    have hnd : (dedupList ((rows.enum.filterMap
        (fun p => (coordKey p.2).map (fun k2 => (k2, p.1, p.2)))).map
        (fun e => e.1))).Nodup := nodup_dedupList _
    have hsusp := hnd.filter (fun k =>
      decide (2 ≤ ((rows.enum.filterMap
          (fun p => (coordKey p.2).map (fun k2 => (k2, p.1, p.2)))).filter
          (fun e => e.1 = k)).length ∧
        ((rows.enum.filterMap
          (fun p => (coordKey p.2).map (fun k2 => (k2, p.1, p.2)))).filter
          (fun e => e.1 = k)).all
          (fun e => is_low_confidence_geo_source ue e.2.2.geo_source) = true))
    refine (List.Pairwise.imp ?_ hsusp)
    intro k1 k2 hne
    intro i hik1 hik2
    simp only [Function.comp, keyedAll_filter, List.map_map] at hik1 hik2
    obtain ⟨q1, hq1, hpi1⟩ := List.mem_map.mp hik1
    obtain ⟨q2, hq2, hpi2⟩ := List.mem_map.mp hik2
    obtain ⟨hm1, hc1⟩ := List.mem_filter.mp hq1
    obtain ⟨hm2, hc2⟩ := List.mem_filter.mp hq2
    have e1 : rows[q1.1]? = some q1.2 := by
      have : (q1.1, q1.2) ∈ rows.enum := by simpa using hm1
      exact List.mk_mem_enum_iff_getElem?.mp this
    have e2 : rows[q2.1]? = some q2.2 := by
      have : (q2.1, q2.2) ∈ rows.enum := by simpa using hm2
      exact List.mk_mem_enum_iff_getElem?.mp this
    have hidx : q1.1 = q2.1 := by
      rw [show q1.1 = i from hpi1, show q2.1 = i from hpi2]
    rw [hidx] at e1
    have hrow : q1.2 = q2.2 := Option.some.inj (e1.symm.trans e2)
    apply hne
    have hck1 := of_decide_eq_true hc1
    have hck2 := of_decide_eq_true hc2
    rw [hrow] at hck1
    exact Option.some.inj (hck1.symm.trans hck2)

end Fusion

namespace Fusion

theorem repairFold_cons_none (ue : String → String) (g : String → GeoResp)
    (p : ℚ × ℚ × Nat × MergedRow) (rest : List (ℚ × ℚ × Nat × MergedRow))
    (arr : List MergedRow)
    (hacc : repairAccept g p.1 p.2.1
      (build_overlap_repair_queries ue p.2.2.2) = none) :
    repairFold ue g (p :: rest) arr = repairFold ue g rest arr := by
  unfold repairFold
  simp only [List.foldl_cons, hacc]

theorem repairFold_cons_some (ue : String → String) (g : String → GeoResp)
    (p : ℚ × ℚ × Nat × MergedRow) (rest : List (ℚ × ℚ × Nat × MergedRow))
    (arr : List MergedRow) (la lo : ℚ) (strategy status : String)
    (hacc : repairAccept g p.1 p.2.1
      (build_overlap_repair_queries ue p.2.2.2) =
      some (la, lo, strategy, status)) :
    repairFold ue g (p :: rest) arr =
      repairFold ue g rest (arr.set p.2.2.1
        { p.2.2.2 with
          lat := some la
          lng := some lo
          geo_source := repairGeoSource strategy status }) := by
  unfold repairFold
  simp only [List.foldl_cons, hacc]

theorem repairFold_length (ue : String → String) (g : String → GeoResp) :
    ∀ (items : List (ℚ × ℚ × Nat × MergedRow)) (arr : List MergedRow),
      (repairFold ue g items arr).length = arr.length := by
  intro items
  induction items with
  | nil => exact fun arr => rfl
  | cons p rest ih =>
    intro arr
    rcases hacc : repairAccept g p.1 p.2.1
        (build_overlap_repair_queries ue p.2.2.2) with
      _ | ⟨la, lo, strategy, status⟩
    · rw [repairFold_cons_none ue g p rest arr hacc]
      exact ih arr
    · rw [repairFold_cons_some ue g p rest arr la lo strategy status hacc]
      exact (ih _).trans (List.length_set _ _ _)

theorem repairFold_getElem_ne (ue : String → String) (g : String → GeoResp) :
    ∀ (items : List (ℚ × ℚ × Nat × MergedRow)) (arr : List MergedRow)
      (i : Nat), (∀ p ∈ items, p.2.2.1 ≠ i) →
      (repairFold ue g items arr)[i]? = arr[i]? := by
  intro items
  induction items with
  | nil => exact fun arr i _ => rfl
  | cons p rest ih =>
    intro arr i hne
    rcases hacc : repairAccept g p.1 p.2.1
        (build_overlap_repair_queries ue p.2.2.2) with
      _ | ⟨la, lo, strategy, status⟩
    · rw [repairFold_cons_none ue g p rest arr hacc]
      exact ih arr i (fun q hq => hne q (List.mem_cons_of_mem _ hq))
    · rw [repairFold_cons_some ue g p rest arr la lo strategy status hacc]
      rw [ih _ i (fun q hq => hne q (List.mem_cons_of_mem _ hq))]
      exact List.getElem?_set_ne (hne p (List.mem_cons_self _ _))

theorem repairFold_getElem_mem (ue : String → String) (g : String → GeoResp) :
    ∀ (items : List (ℚ × ℚ × Nat × MergedRow)) (arr : List MergedRow)
      (p : ℚ × ℚ × Nat × MergedRow), p ∈ items →
      (items.map (fun q => q.2.2.1)).Nodup →
      arr[p.2.2.1]? = some p.2.2.2 →
      (repairFold ue g items arr)[p.2.2.1]? =
        some (repairUpdate ue g p.1 p.2.1 p.2.2.2) := by
  intro items
  induction items with
  | nil => intro arr p hp; exact absurd hp (List.not_mem_nil p)
  | cons q rest ih =>
    intro arr p hp hnd hrow
    rw [List.map_cons, List.nodup_cons] at hnd
    rcases List.mem_cons.mp hp with rfl | hp2
    · have hrest : ∀ w ∈ rest, w.2.2.1 ≠ p.2.2.1 := by
        intro w hw hcontra
        exact hnd.1 (hcontra ▸ List.mem_map_of_mem _ hw)
      rcases hacc : repairAccept g p.1 p.2.1
          (build_overlap_repair_queries ue p.2.2.2) with
        _ | ⟨la, lo, strategy, status⟩
      · rw [repairFold_cons_none ue g p rest arr hacc,
          repairFold_getElem_ne ue g rest arr _ hrest, hrow, repairUpdate, hacc]
      · rw [repairFold_cons_some ue g p rest arr la lo strategy status hacc,
          repairFold_getElem_ne ue g rest _ _ hrest,
          List.getElem?_set_self (by
            rcases List.getElem?_eq_some.mp hrow with ⟨hlt, _⟩
            exact hlt),
          repairUpdate, hacc]
    · rcases hacc : repairAccept g q.1 q.2.1
          (build_overlap_repair_queries ue q.2.2.2) with
        _ | ⟨la, lo, strategy, status⟩
      · rw [repairFold_cons_none ue g q rest arr hacc]
        exact ih arr p hp2 hnd.2 hrow
      · rw [repairFold_cons_some ue g q rest arr la lo strategy status hacc]
        refine ih _ p hp2 hnd.2 ?_
        rw [List.getElem?_set_ne, hrow]
        intro hcontra
        exact hnd.1 (hcontra ▸ List.mem_map_of_mem _ hp2)

end Fusion

namespace Fusion

theorem repairAccept_eq_spec (g : String → GeoResp) (ola olo : ℚ) :
    ∀ qs : List (String × String),
      repairAccept g ola olo qs = repairAccept_spec g ola olo qs := by
  intro qs
  induction qs with
  | nil => rfl
  | cons q rest ih =>
    obtain ⟨qq, strategy⟩ := q
    rw [repairAccept_spec, List.findSome?_cons]
    rcases hla : (g qq).lat with _ | la <;> rcases hlo : (g qq).lng with _ | lo <;>
      by_cases hst : ((g qq).status = "ok" ∨ (g qq).status = "cached_ok")
    · simp [repairAccept, repairTry_spec, hla, hlo, hst, ih, repairAccept_spec]
    · simp [repairAccept, repairTry_spec, hla, hlo, hst, ih, repairAccept_spec]
    · simp [repairAccept, repairTry_spec, hla, hlo, hst, ih, repairAccept_spec]
    · simp [repairAccept, repairTry_spec, hla, hlo, hst, ih, repairAccept_spec]
    · simp [repairAccept, repairTry_spec, hla, hlo, hst, ih, repairAccept_spec]
    · simp [repairAccept, repairTry_spec, hla, hlo, hst, ih, repairAccept_spec]
    · by_cases hcl : |la - ola| ≤ COORD_EPSILON ∧ |lo - olo| ≤ COORD_EPSILON
      · have hcond : ¬ (COORD_EPSILON < |la - ola| ∨ COORD_EPSILON < |lo - olo|) := by
          rw [not_or, not_lt, not_lt]
          exact hcl
        simp [repairAccept, repairTry_spec, hla, hlo, hst, hcl, ih,
          repairAccept_spec, hcond]
      · rw [not_and_or, not_le, not_le] at hcl
        simp [repairAccept, repairTry_spec, hla, hlo, hst, hcl, ih,
          repairAccept_spec, not_and_or, not_le]
        intro h1 h2
        rcases hcl with hcl | hcl
        · exact absurd hcl (not_lt.mpr h1)
        · exact absurd hcl (not_lt.mpr h2)
    · simp [repairAccept, repairTry_spec, hla, hlo, hst, ih, repairAccept_spec]

end Fusion

namespace Fusion

theorem repairGeoSource_eq (strategy status : String) (b : Bool)
    (hb : (b = true) ↔ status = "cached_ok") :
    repairGeoSource strategy status =
      (if Py.contains strategy "event_name" = true then
        "network_geocode_overlap_repair_title"
      else "network_geocode_overlap_repair") ++
      (if b = true then "_cache" else "") := by
  by_cases hcache : status = "cached_ok"
  · have hbt : b = true := hb.mpr hcache
    simp [repairGeoSource, hcache, hbt]
  · have hbf : ¬ b = true := fun hb2 => hcache (hb.mp hb2)
    simp [repairGeoSource, hcache, hbf, String.append_empty]

theorem repairAccept_names (g : String → GeoResp)
    (hcontract : ∀ q, ((g q).cache_hit = true) ↔ (g q).status = "cached_ok") :
    ∀ (qs : List (String × String)) (ola olo la lo : ℚ)
      (strategy status : String),
      repairAccept g ola olo qs = some (la, lo, strategy, status) →
      ∃ q, (q, strategy) ∈ qs ∧ (g q).status = status ∧
        (g q).lat = some la ∧ (g q).lng = some lo ∧
        (status = "ok" ∨ status = "cached_ok") ∧
        ¬ (|la - ola| ≤ COORD_EPSILON ∧ |lo - olo| ≤ COORD_EPSILON) ∧
        repairGeoSource strategy status =
          (if Py.contains strategy "event_name" = true then
            "network_geocode_overlap_repair_title"
          else "network_geocode_overlap_repair") ++
          (if (g q).cache_hit = true then "_cache" else "") := by
  intro qs
  induction qs with
  | nil =>
    intro ola olo la lo strategy status h
    exact absurd h (by simp [repairAccept])
  | cons q rest ih =>
    obtain ⟨qq, st2⟩ := q
    intro ola olo la lo strategy status h
    by_cases hst : ((g qq).status = "ok" ∨ (g qq).status = "cached_ok")
    · rcases hla : (g qq).lat with _ | la2
      · rw [show repairAccept g ola olo ((qq, st2) :: rest) =
            repairAccept g ola olo rest by simp [repairAccept, hla]] at h
        obtain ⟨w, hw, hrest⟩ := ih ola olo la lo strategy status h
        exact ⟨w, List.mem_cons_of_mem _ hw, hrest⟩
      · rcases hlo : (g qq).lng with _ | lo2
        · rw [show repairAccept g ola olo ((qq, st2) :: rest) =
              repairAccept g ola olo rest by simp [repairAccept, hla, hlo]] at h
          obtain ⟨w, hw, hrest⟩ := ih ola olo la lo strategy status h
          exact ⟨w, List.mem_cons_of_mem _ hw, hrest⟩
        · by_cases hcl : |la2 - ola| ≤ COORD_EPSILON ∧ |lo2 - olo| ≤ COORD_EPSILON
          · rw [show repairAccept g ola olo ((qq, st2) :: rest) =
                repairAccept g ola olo rest by
                  simp [repairAccept, hla, hlo, hst, hcl]] at h
            obtain ⟨w, hw, hrest⟩ := ih ola olo la lo strategy status h
            exact ⟨w, List.mem_cons_of_mem _ hw, hrest⟩
          · rw [show repairAccept g ola olo ((qq, st2) :: rest) =
                some (la2, lo2, st2, (g qq).status) by
                  simp [repairAccept, hla, hlo, hst, hcl]] at h
            obtain ⟨h1, h2, h3, h4⟩ : la2 = la ∧ lo2 = lo ∧ st2 = strategy ∧
                (g qq).status = status := by
              simpa [Prod.ext_iff] using h
            subst h1
            subst h2
            subst h3
            refine ⟨qq, List.mem_cons_self _ _, h4, hla, hlo, h4 ▸ hst, hcl, ?_⟩
            exact repairGeoSource_eq _ status (g qq).cache_hit
              (by rw [hcontract qq, h4])
    · rw [show repairAccept g ola olo ((qq, st2) :: rest) =
          repairAccept g ola olo rest by
            rcases hla : (g qq).lat with _ | la2 <;>
              rcases hlo : (g qq).lng with _ | lo2 <;>
              simp [repairAccept, hla, hlo, hst]] at h
      obtain ⟨w, hw, hrest⟩ := ih ola olo la lo strategy status h
      exact ⟨w, List.mem_cons_of_mem _ hw, hrest⟩

end Fusion

namespace Fusion

/-- C4: overlap repair works exactly on the members of groups of two or
more fused rows sharing one rounded `(lat, lng)` key all of whose
members carry a low-confidence `geo_source` (part 1); for each such row
the repair queries are tried in order and the first response with
status `ok`/`cached_ok`, both coordinates, and a point moved by more
than `COORD_EPSILON` in latitude or longitude wins (parts 2 and 4);
exactly the suspicious rows are rewritten to the accepted point with
`geo_source = network_geocode_overlap_repair` (`…_title` when the
winning strategy used the event name, `…_cache` when the geocoder
reported the status of a cache hit), all other rows are untouched
(parts 3 and 5).  The `_cache` suffix is tied to the geocoder's
`cache_hit` flag through the collaborator contract `hcontract`. -/
theorem C4_overlap_repair (ue : String → String) (g : String → GeoResp)
    (rows : List MergedRow)
    (hcontract : ∀ q, ((g q).cache_hit = true) ↔ (g q).status = "cached_ok") :
    (∀ (ola olo : ℚ) (i : Nat) (r : MergedRow),
      ((ola, olo, i, r) ∈ suspiciousItems ue rows ↔
        ((i, r) ∈ keyMembers_spec rows (ola, olo) ∧
         2 ≤ (keyMembers_spec rows (ola, olo)).length ∧
         ∀ p ∈ keyMembers_spec rows (ola, olo),
           is_low_confidence_geo_source ue p.2.geo_source = true))) ∧
    (∀ (ola olo : ℚ) (qs : List (String × String)),
      repairAccept g ola olo qs = repairAccept_spec g ola olo qs) ∧
    ((repair_overlap_coordinates ue (some g) rows).length = rows.length ∧
     (∀ p ∈ suspiciousItems ue rows,
       (repair_overlap_coordinates ue (some g) rows)[p.2.2.1]? =
         some (repairUpdate ue g p.1 p.2.1 p.2.2.2)) ∧
     (∀ i : Nat, (∀ p ∈ suspiciousItems ue rows, p.2.2.1 ≠ i) →
       (repair_overlap_coordinates ue (some g) rows)[i]? = rows[i]?)) ∧
    (∀ (ola olo : ℚ) (row : MergedRow),
      repairUpdate ue g ola olo row =
        match repairAccept_spec g ola olo
            (build_overlap_repair_queries ue row) with
        | none => row
        | some (la, lo, strategy, status) =>
          { row with
            lat := some la
            lng := some lo
            geo_source := repairGeoSource strategy status }) ∧
    (∀ (qs : List (String × String)) (ola olo la lo : ℚ)
      (strategy status : String),
      repairAccept g ola olo qs = some (la, lo, strategy, status) →
      ∃ q, (q, strategy) ∈ qs ∧ (g q).status = status ∧
        (g q).lat = some la ∧ (g q).lng = some lo ∧
        (status = "ok" ∨ status = "cached_ok") ∧
        ¬ (|la - ola| ≤ COORD_EPSILON ∧ |lo - olo| ≤ COORD_EPSILON) ∧
        repairGeoSource strategy status =
          (if Py.contains strategy "event_name" = true then
            "network_geocode_overlap_repair_title"
          else "network_geocode_overlap_repair") ++
          (if (g q).cache_hit = true then "_cache" else "")) := by
  refine ⟨mem_suspiciousItems ue rows, repairAccept_eq_spec g, ⟨?_, ?_, ?_⟩, ?_, ?_⟩
  · rw [repair_overlap_coordinates]
    exact repairFold_length ue g _ rows
  · intro p hp
    rw [repair_overlap_coordinates]
    exact repairFold_getElem_mem ue g _ rows p hp
      (nodup_suspiciousItems_idx ue rows) (suspiciousItems_row ue rows p hp)
  · intro i hne
    rw [repair_overlap_coordinates]
    exact repairFold_getElem_ne ue g _ rows i hne
  · intro ola olo row
    rw [repairUpdate, repairAccept_eq_spec g]
  · exact repairAccept_names g hcontract

/-- C4 theorem applied to the never-resolving geocoder stub (which
satisfies the cache contract) and an empty row list. -/
theorem C4_overlap_repair_witness :
    (∀ q : String, ((gNo q).cache_hit = true) ↔ (gNo q).status = "cached_ok") ∧
    repairAccept gNo 0 0 [("東京都隅田川花火大会", "repair_event_name_raw")] =
      repairAccept_spec gNo 0 0
        [("東京都隅田川花火大会", "repair_event_name_raw")] :=
  ⟨fun q => by simp [gNo],
   (C4_overlap_repair id gNo [] (fun q => by simp [gNo])).2.1 0 0 _⟩

end Fusion

namespace Export

/-! C8 — the entry-construction stage of `export_ios_seed.py`. -/

/-- Python truthiness of a decoded JSON value (`bool(v)`). -/
def jvTruthy : Jv → Bool
  | Jv.jnull => false
  | Jv.jbool b => b
  | Jv.jint n => n ≠ 0
  | Jv.jdec m _ => m ≠ 0
  | Jv.jstr s => s ≠ ""
  | Jv.jarr l => !l.isEmpty
  | Jv.jobj l => !l.isEmpty

/-- `", "`-join (`repr` separators). -/
def joinComma2 (l : List String) : String :=
  match l with
  | [] => ""
  | x :: rest => rest.foldl (fun acc y => acc ++ ", " ++ y) x

mutual

/-- Python `str(v)` of a decoded JSON value.  Scalars are faithful
(`str(None) = "None"`, booleans capitalised, floats through the short
decimal repr); for the container fallback (`repr` of lists/dicts —
which the pipeline's scalar fields never hit) strings are single-quoted
without the escaping subtleties of `repr`. -/
def pyStr : Jv → String
  | Jv.jnull => "None"
  | Jv.jbool b => if b then "True" else "False"
  | Jv.jint n => toString n
  | Jv.jdec m e => decRepr m e
  | Jv.jstr s => s
  | Jv.jarr l => "[" ++ joinComma2 (pyReprList l) ++ "]"
  | Jv.jobj l => "\x7b" ++ joinComma2 (pyReprObj l) ++ "\x7d"
termination_by structural v => v

/-- `repr` of the elements of a container (`str(list)`/`str(dict)`
render their members through `repr`: strings single-quoted). -/
def pyReprList : List Jv → List String
  | [] => []
  | Jv.jstr s :: rest => ("\x27" ++ s ++ "\x27") :: pyReprList rest
  | v :: rest => pyStr v :: pyReprList rest
termination_by structural l => l

def pyReprObj : List (String × Jv) → List String
  | [] => []
  | (k, Jv.jstr s) :: rest =>
    ("\x27" ++ k ++ "\x27: " ++ ("\x27" ++ s ++ "\x27")) :: pyReprObj rest
  | (k, v) :: rest => ("\x27" ++ k ++ "\x27: " ++ pyStr v) :: pyReprObj rest
termination_by structural l => l

end

/-- `nonempty(raw)`: `None` stays `None`, otherwise `str(raw).strip()`
with the empty string collapsed to `None`. -/
def nonemptyJv : Jv → Option String
  | Jv.jnull => none
  | v =>
    let t := Py.strip (pyStr v)
    if t = "" then none else some t

/-- `nonempty(row.get(key))` (an absent key is `None`). -/
def nonemptyOpt : Option Jv → Option String
  | none => none
  | some v => nonemptyJv v

/-- `raw or ""` before `str(...)` (`str(row.get(k) or "")`). -/
def jvOrEmpty : Option Jv → Jv
  | none => Jv.jstr ""
  | some v => if jvTruthy v then v else Jv.jstr ""

/-- `str(row.get(key, ""))` (absent key defaults to `""`). -/
def getStrD (row : Row) (key : String) : String :=
  match Row.get row key with
  | some v => pyStr v
  | none => ""

/-- `s.split("|")` on the raw character list. -/
def splitBarAux : Nat → List Char → List Char → List String
  | 0, acc, _ => [⟨acc.reverse⟩]
  | _, acc, [] => [⟨acc.reverse⟩]
  | fuel + 1, acc, c :: rest =>
    if c = '|' then ⟨acc.reverse⟩ :: splitBarAux fuel [] rest
    else splitBarAux fuel (c :: acc) rest

/-- `s.split("|")`. -/
def splitBar (s : String) : List String :=
  splitBarAux s.data.length [] s.data

/-- `normalize_string_list(raw)`: a list keeps its nonempty stripped
items; a string splits on `"|"` when one occurs, else wraps its
stripped self; anything else is empty. -/
def normalize_string_list (raw : Option Jv) : List String :=
  match raw with
  | some (Jv.jarr items) => items.filterMap nonemptyJv
  | some (Jv.jstr s) =>
    if Py.contains s "|" then
      (splitBar s).filterMap (fun part =>
        let t := Py.strip part
        if t = "" then none else some t)
    else
      let t := Py.strip s
      if t = "" then [] else [t]
  | _ => []

/-- `DIRTY_IMAGE_FINGERPRINTS`. -/
def DIRTY_IMAGE_FINGERPRINTS : List String := ["banner1_069a0e3420"]

/-- `is_generic_image_url(url)`. -/
def is_generic_image_url (url : String) : Bool :=
  let low := Py.lower url
  DIRTY_IMAGE_FINGERPRINTS.any (fun fp => Py.contains low fp) ||
  Py.endsWith low "/img/header.jpg" || Py.endsWith low "/img/header.jpeg" ||
  Py.endsWith low "/img/header.png" ||
  Py.contains low "ogp0.png"

end Export

namespace Export

/-- Zero-padded two-digit rendering (`f"{n:02d}"` for `0 ≤ n < 100`). -/
def pad2 (n : Nat) : String :=
  if n < 10 then "0" ++ toString n else toString n

/-- A date separator (one of `-`, `/`, `年`, `.`). -/
def isSep1 (c : Char) : Bool := c = '-' || c = '/' || c = '年' || c = '.'

/-- A month separator (one of `-`, `/`, `月`, `.`). -/
def isSep2 (c : Char) : Bool := c = '-' || c = '/' || c = '月' || c = '.'

/-- Leftmost-match scan over the suffixes of a character list
(`re.search`). -/
def scanOpt {α : Type} (p : List Char → Option α) : List Char → Option α
  | [] => p []
  | c :: rest =>
    match p (c :: rest) with
    | some v => some v
    | none => scanOpt p rest

/-- Day part of the date pattern (`(\d{1,2})`, greedy). -/
def dateDay (y mo : Nat) : List Char → Option (Nat × Nat × Nat)
  | a :: b :: _ =>
    if Py.isDigit a ∧ Py.isDigit b then some (y, mo, Py.digitsVal [a, b])
    else if Py.isDigit a then some (y, mo, Py.digitVal a)
    else none
  | [a] => if Py.isDigit a then some (y, mo, Py.digitVal a) else none
  | [] => none

/-- Month-and-day part (`(\d{1,2})`, a month separator, `(\d{1,2})`;
the greedy two-digit month backtracks to one digit when the separator
fails). -/
def dateMonthDay (y : Nat) : List Char → Option (Nat × Nat × Nat)
  | m1 :: m2 :: s2 :: rest =>
    if Py.isDigit m1 ∧ Py.isDigit m2 ∧ isSep2 s2 then
      dateDay y (Py.digitsVal [m1, m2]) rest
    else if Py.isDigit m1 ∧ isSep2 m2 then
      dateDay y (Py.digitVal m1) (s2 :: rest)
    else none
  | _ => none

/-- One anchored attempt of the date pattern: `20\d{2}`, a date
separator, `\d{1,2}`, a month separator, `\d{1,2}`. -/
def matchDateAt : List Char → Option (Nat × Nat × Nat)
  | '2' :: '0' :: d1 :: d2 :: s1 :: rest =>
    if Py.isDigit d1 ∧ Py.isDigit d2 ∧ isSep1 s1 then
      dateMonthDay (Py.digitsVal ['2', '0', d1, d2]) rest
    else none
  | _ => none

/-- `extract_date(raw)`: leftmost regex match, then the range check
(a match with an out-of-range month or day yields `None` outright). -/
def extract_date (raw : Option Jv) : Option String :=
  match raw with
  | none => none
  | some Jv.jnull => none
  | some v =>
    match scanOpt matchDateAt (pyStr v).data with
    | none => none
    | some (y, mo, d) =>
      if mo < 1 ∨ 12 < mo ∨ d < 1 ∨ 31 < d then none
      else some (toString y ++ "-" ++ pad2 mo ++ "-" ++ pad2 d)

/-- `[:：]([0-5]\d)` after the hour. -/
def colonMinute : List Char → Option Nat
  | c :: a :: b :: _ =>
    if (c = ':' ∨ c = '：') ∧ ('0' ≤ a ∧ a ≤ '5') ∧ Py.isDigit b then
      some (Py.digitsVal [a, b])
    else none
  | _ => none

/-- One anchored attempt of `([01]?\d|2[0-3])[:：]([0-5]\d)` (the
optional leading `[01]` is greedy; the `2[0-3]` alternative comes
last). -/
def matchTimeColonAt : List Char → Option (Nat × Nat)
  | c1 :: c2 :: rest =>
    if (c1 = '0' ∨ c1 = '1') ∧ Py.isDigit c2 then
      match colonMinute rest with
      | some m => some (Py.digitsVal [c1, c2], m)
      | none =>
        match colonMinute (c2 :: rest) with
        | some m => some (Py.digitVal c1, m)
        | none => none
    else if Py.isDigit c1 then
      match colonMinute (c2 :: rest) with
      | some m => some (Py.digitVal c1, m)
      | none =>
        if c1 = '2' ∧ ('0' ≤ c2 ∧ c2 ≤ '3') then
          match colonMinute rest with
          | some m => some (Py.digitsVal [c1, c2], m)
          | none => none
        else none
    else none
  | _ => none

/-- `\s*` (Python `re` whitespace over the pipeline's text). -/
def skipWs (cs : List Char) : List Char := cs.dropWhile Py.isSpace

/-- `\s*分` closes the kanji time pattern. -/
def startsFen (cs : List Char) : Bool :=
  match skipWs cs with
  | c :: _ => c = '分'
  | [] => false

/-- `([0-5]?\d)\s*分` after `時\s*` (greedy two-digit minute backtracks
to one digit when `分` does not follow). -/
def kanjiMinute : List Char → Option Nat
  | a :: b :: rest =>
    if ('0' ≤ a ∧ a ≤ '5') ∧ Py.isDigit b ∧ startsFen rest then
      some (Py.digitsVal [a, b])
    else if Py.isDigit a ∧ startsFen (b :: rest) then
      some (Py.digitVal a)
    else none
  | _ => none

/-- `\s*時\s*` then the minute part. -/
def afterJi (cs : List Char) : Option Nat :=
  match skipWs cs with
  | '時' :: rest => kanjiMinute (skipWs rest)
  | _ => none

/-- One anchored attempt of
`([01]?\d|2[0-3])\s*時\s*([0-5]?\d)\s*分`. -/
def matchTimeKanjiAt : List Char → Option (Nat × Nat)
  | c1 :: c2 :: rest =>
    if (c1 = '0' ∨ c1 = '1') ∧ Py.isDigit c2 then
      match afterJi rest with
      | some m => some (Py.digitsVal [c1, c2], m)
      | none =>
        match afterJi (c2 :: rest) with
        | some m => some (Py.digitVal c1, m)
        | none => none
    else if Py.isDigit c1 then
      match afterJi (c2 :: rest) with
      | some m => some (Py.digitVal c1, m)
      | none =>
        if c1 = '2' ∧ ('0' ≤ c2 ∧ c2 ≤ '3') then
          match afterJi rest with
          | some m => some (Py.digitsVal [c1, c2], m)
          | none => none
        else none
    else none
  | _ => none

/-- `extract_time(raw)`: the colon pattern first, then the kanji
pattern, each by leftmost match; `f"{h:02d}:{m:02d}"`. -/
def extract_time (raw : Option Jv) : Option String :=
  match raw with
  | none => none
  | some Jv.jnull => none
  | some v =>
    let cs := (pyStr v).data
    match scanOpt matchTimeColonAt cs with
    | some (h, m) => some (pad2 h ++ ":" ++ pad2 m)
    | none =>
      match scanOpt matchTimeKanjiAt cs with
      | some (h, m) => some (pad2 h ++ ":" ++ pad2 m)
      | none => none

end Export
namespace Export

/-- One anchored attempt of `-?\d+(\.\d+)?` (greedy digit runs). -/
def matchNumAt : List Char → Option ℚ
  | '-' :: rest =>
    (matchUnsigned rest).map (fun q => -q)
  | cs => matchUnsigned cs
where
  matchUnsigned (cs : List Char) : Option ℚ :=
    let ds := cs.takeWhile Py.isDigit
    if ds.isEmpty then none
    else
      match cs.drop ds.length with
      | '.' :: rest =>
        let fs := rest.takeWhile Py.isDigit
        if fs.isEmpty then some (Py.digitsVal ds)
        else some ((Py.digitsVal ds : ℚ) +
          (Py.digitsVal fs : ℚ) / ((10 : ℚ) ^ fs.length))
      | _ => some (Py.digitsVal ds)

/-- `parse_score_int(raw)`: numbers (booleans included — `bool` is an
`int` in Python) are rounded half-to-even and clamped to `[0, 100]`;
anything else goes through `str(raw)` and the first `-?\d+(\.\d+)?`
match; `int(round(float(n)))` is the identity on the integers the rows
carry. -/
def parse_score_int (raw : Option Jv) : Option Int :=
  match raw with
  | none => none
  | some Jv.jnull => none
  | some (Jv.jint n) => some (Scores.clamp n 0 100)
  | some (Jv.jbool b) => some (Scores.clamp (if b then 1 else 0) 0 100)
  | some (Jv.jdec m e) =>
    some (Scores.clamp (Fusion.roundHalfEven ((m : ℚ) / (10 : ℚ) ^ e)) 0 100)
  | some v =>
    match scanOpt matchNumAt (pyStr v).data with
    | none => none
    | some q => some (Scores.clamp (Fusion.roundHalfEven q) 0 100)

/-- `if not row:` — `None` and the empty dict are falsy. -/
def rowTruthy : Option Row → Bool
  | none => false
  | some l => !l.isEmpty

/-- `is_usable_ai_score(row)`. -/
def is_usable_ai_score (row : Option Row) : Bool :=
  if rowTruthy row then
    match row with
    | some r =>
      let status := Py.lower (Py.strip (getStrD r "status"))
      let source := Py.lower (Py.strip (getStrD r "score_source"))
      source = "ai" && (status = "ok" || decide ("cached".data <+: status.data))
    | none => false
  else false

/-- The `source_count` read of `derive_scores`/`derive_hint`:
`isinstance(raw, int)` keeps the integer (booleans are ints), anything
else is `parse_number(raw) or 1`. -/
def readSourceCount (raw : Option Jv) : Int :=
  match raw with
  | some (Jv.jint n) => n
  | some (Jv.jbool b) => if b then 1 else 0
  | v =>
    match v with
    | none => (Scores.pyOrNat none 1 : Int)
    | some Jv.jnull => (Scores.pyOrNat none 1 : Int)
    | some w => (Scores.pyOrNat (Py.parse_number (pyStr w)) 1 : Int)

/-- `parse_number(row.get(key)) or d` (absent and `None` parse to
`None`; `0` is falsy). -/
def parseNumOr (raw : Option Jv) (d : Nat) : Nat :=
  match raw with
  | none => Scores.pyOrNat none d
  | some Jv.jnull => Scores.pyOrNat none d
  | some v => Scores.pyOrNat (Py.parse_number (pyStr v)) d

/-- `derive_scores(row, category, score_row)`.  As in the scoring
stage, `int(launch_count**0.5 / 3)` is `Nat.sqrt launch_count / 3`
(the float square root is exact on perfect squares below 2⁵³ and never
lands close enough to a multiple of the divisor elsewhere to move the
floor), and likewise for the visitor term. -/
def derive_scores (row : Row) (category : String) (score_row : Option Row) :
    Int × Int × Int :=
  let source_count := readSourceCount (Row.get row "source_count")
  let launch_count := parseNumOr (Row.get row "launch_count") 0
  let visitors := parseNumOr (Row.get row "expected_visitors") 0
  let base : Int := 40 + min (source_count * 8) 24
  let base := if launch_count > 0 then
    base + min (Nat.sqrt launch_count / 3 : Nat) 24 else base
  let base := if visitors > 0 then
    base + min (Nat.sqrt visitors / 8 : Nat) 20 else base
  let base := if Py.lower (getStrD row "update_priority") = "high" then
    base - 4 else base
  let base := if category = "hanabi" then base + 6 else base
  let scale := Scores.clamp base 25 99
  let ai_heat := if is_usable_ai_score score_row then
    parse_score_int (score_row.bind (fun r => Row.get r "initial_heat_score"))
    else none
  let ai_surprise := if is_usable_ai_score score_row then
    parse_score_int (score_row.bind (fun r => Row.get r "surprise_score"))
    else none
  let heat := match ai_heat with
    | some h => h
    | none => Scores.clamp (scale + 6) 20 100
  let surprise := match ai_surprise with
    | some s => s
    | none => Scores.clamp (52 + (scale * 37) % 39) 15 98
  (scale, heat, surprise)

/-- `derive_distance_by_hash(canonical_id)`: the first four SHA-256
digest bytes as a big-endian seed, `280 + seed % 5200` (an integral
float). -/
def derive_distance_by_hash (canonical_id : String) : Nat :=
  let d := Hash.sha256 (utf8 canonical_id)
  let seed := ((d.getD 0 0 * 256 + d.getD 1 0) * 256 + d.getD 2 0) * 256 + d.getD 3 0
  280 + seed % 5200

/-- `derive_hint(row, category)`. -/
def derive_hint (row : Row) (category : String) : String :=
  let pref := Py.strip (pyStr (jvOrEmpty (Row.get row "prefecture")))
  let city := Py.strip (pyStr (jvOrEmpty (Row.get row "city")))
  let source_count := readSourceCount (Row.get row "source_count")
  let location := if city ≠ "" then city
    else if pref ≠ "" then pref else "開催地確認中"
  let type_hint := if category = "hanabi" then "花火" else "祭典"
  location ++ "・" ++ type_hint ++ "候補（" ++ toString source_count ++ "ソース統合）"

/-- `float(raw)` of a decoded JSON value (`TypeError`/`ValueError` as
`none`; `float(True) = 1.0`; strings are stripped then parsed). -/
def jvToFloat : Option Jv → Option ℚ
  | some (Jv.jint n) => some n
  | some (Jv.jdec m e) => some ((m : ℚ) / (10 : ℚ) ^ e)
  | some (Jv.jbool b) => some (if b then 1 else 0)
  | some (Jv.jstr s) => Fusion.pyFloat (Py.strip s)
  | _ => none

/-- `parse_coordinate(row)`. -/
def parse_coordinate (row : Row) : Option (ℚ × ℚ) :=
  match jvToFloat (Row.get row "lat"), jvToFloat (Row.get row "lng") with
  | some la, some lo =>
    if -90 ≤ la ∧ la ≤ 90 ∧ -180 ≤ lo ∧ lo ≤ 180 then some (la, lo) else none
  | _, _ => none

/-- The 16 bytes of `uuid.NAMESPACE_URL`
(`6ba7b811-9dad-11d1-80b4-00c04fd430c8`). -/
def NAMESPACE_URL : List Nat :=
  [0x6b, 0xa7, 0xb8, 0x11, 0x9d, 0xad, 0x11, 0xd1,
   0x80, 0xb4, 0x00, 0xc0, 0x4f, 0xd4, 0x30, 0xc8]

/-- `str(uuid.uuid5(uuid.NAMESPACE_URL, name))`: SHA-1 of the namespace
bytes followed by the UTF-8 name, truncated to 16 bytes, with the
version nibble of byte 6 forced to 5 and the variant bits of byte 8 to
`10`, rendered as the dashed lowercase hex groups 8-4-4-4-12. -/
def uuid5_url (name : String) : String :=
  let d := Hash.sha1 (NAMESPACE_URL ++ utf8 name)
  let b := fun i => d.getD i 0
  let b6 := b 6 % 16 + 0x50
  let b8 := b 8 % 64 + 0x80
  bytesToHex [b 0, b 1, b 2, b 3] ++ "-" ++
  bytesToHex [b 4, b 5] ++ "-" ++
  bytesToHex [b6, b 7] ++ "-" ++
  bytesToHex [b8, b 9] ++ "-" ++
  bytesToHex [b 10, b 11, b 12, b 13, b 14, b 15]

end Export
namespace Export

/-- `a or b` on nonempty-filtered optional strings (the values are
never `""`, so Python truthiness is `isSome`). -/
def pyOrStr (a b : Option String) : Option String :=
  match a with
  | some s => some s
  | none => b

/-- The `candidate_roots` probing loop of `build_entry`, with the
filesystem (`Path.exists` under the per-category roots) as the
collaborator `imgResolve : rel_path → Option abs_path`: the first
relative path the collaborator resolves wins. -/
def firstResolve (imgResolve : String → Option String) :
    List String → Option (String × String)
  | [] => none
  | rel :: rest =>
    match imgResolve rel with
    | some abs2 => some (abs2, rel)
    | none => firstResolve imgResolve rest

/-- The content-derived fields of `build_entry` (description/one-liner
translations, the possibly overridden source-url list, the description
source url, the image source url, and the local image pair). -/
def contentFields (imgResolve : String → Option String)
    (source_urls0 : List String) (content_row : Option Row) :
    Option String × Option String × Option String × Option String ×
    Option String × Option String × List String × Option String ×
    Option String × Option String × Option String :=
  let content_source_url0 := source_urls0.head?
  if rowTruthy content_row then
    match content_row with
    | none =>
      (none, none, none, none, none, none, source_urls0, content_source_url0,
       none, none, none)
    | some cr =>
      let content_description := pyOrStr (nonemptyOpt (Row.get cr "polished_description"))
        (nonemptyOpt (Row.get cr "raw_description"))
      let content_one_liner := nonemptyOpt (Row.get cr "one_liner")
      let content_description_zh := nonemptyOpt (Row.get cr "polished_description_zh")
      let content_one_liner_zh := nonemptyOpt (Row.get cr "one_liner_zh")
      let content_description_en := nonemptyOpt (Row.get cr "polished_description_en")
      let content_one_liner_en := nonemptyOpt (Row.get cr "one_liner_en")
      let description_source := nonemptyOpt (Row.get cr "description_source_url")
      let content_source_urls := normalize_string_list (Row.get cr "source_urls")
      let source_urls := if !content_source_urls.isEmpty then content_source_urls
        else source_urls0
      let content_source_url := match description_source with
        | some s => some s
        | none => match source_urls.head? with
          | some u => some u
          | none => content_source_url0
      let content_image_urls := normalize_string_list (Row.get cr "image_urls")
      let downloaded_images := normalize_string_list (Row.get cr "downloaded_images")
      let non_generic_indices := (content_image_urls.enum.filter
        (fun p => !is_generic_image_url p.2)).map (fun p => p.1)
      let content_image_source_url := match non_generic_indices with
        | i :: _ => some (content_image_urls.getD i "")
        | [] => none
      let candidate_rel_paths :=
        if !non_generic_indices.isEmpty ∧ !downloaded_images.isEmpty then
          non_generic_indices.filterMap (fun idx =>
            match downloaded_images[idx]? with
            | some rel => if is_generic_image_url rel then none else some rel
            | none => none)
        else if content_image_urls.isEmpty then
          downloaded_images.filter (fun rel => !is_generic_image_url rel)
        else []
      let imgPair := firstResolve imgResolve candidate_rel_paths
      (content_description, content_one_liner, content_description_zh,
       content_one_liner_zh, content_description_en, content_one_liner_en,
       source_urls, content_source_url, content_image_source_url,
       imgPair.map (fun p => p.1), imgPair.map (fun p => p.2))
  else
    (none, none, none, none, none, none, source_urls0, content_source_url0,
     none, none, none)

/-- `build_entry(category, row, geohash_precision, content_row,
score_row, repo_root)`, with `uuid.uuid4()` as the draw `uuidDraw` and
the filesystem probing as `imgResolve`. -/
def build_entry (category : String) (row : Row) (geohash_precision : Nat)
    (content_row : Option Row) (score_row : Option Row)
    (imgResolve : String → Option String) (uuidDraw : String) : Entry :=
  let cid0 := Py.strip (pyStr (jvOrEmpty (Row.get row "canonical_id")))
  let canonical_id := if cid0 = "" then uuidDraw else cid0
  let place_id := uuid5_url ("tsugie:" ++ category ++ ":" ++ canonical_id)
  let scores := derive_scores row category score_row
  let geohash := match parse_coordinate row with
    | some (la, lo) => some (geohash_encode la lo geohash_precision)
    | none => none
  let source_urls0 := normalize_string_list (Row.get row "source_urls")
  let cf := contentFields imgResolve source_urls0 content_row
  { category := category
    canonical_id := canonical_id
    ios_place_id := place_id
    distance_meters := derive_distance_by_hash canonical_id
    scale_score := scores.1
    heat_score := scores.2.1
    surprise_score := scores.2.2
    hint := derive_hint row category
    normalized_start_date := extract_date (Row.get row "event_date_start")
    normalized_end_date := extract_date (Row.get row "event_date_end")
    normalized_start_time := extract_time (Row.get row "event_time_start")
    normalized_end_time := extract_time (Row.get row "event_time_end")
    geohash := geohash
    content_description := cf.1
    content_one_liner := cf.2.1
    content_description_zh := cf.2.2.1
    content_one_liner_zh := cf.2.2.2.1
    content_description_en := cf.2.2.2.2.1
    content_one_liner_en := cf.2.2.2.2.2.1
    content_source_urls := cf.2.2.2.2.2.2.1
    content_description_source_url := cf.2.2.2.2.2.2.2.1
    content_image_source_url := cf.2.2.2.2.2.2.2.2.1
    image_local_abs := cf.2.2.2.2.2.2.2.2.2.1
    image_local_rel := cf.2.2.2.2.2.2.2.2.2.2
    record := row }

end Export
namespace Export

/-- The per-entry update `attach_image_payload` writes on success. -/
def withImageRef (e : Entry) (off len : Nat) (sha : String)
    (rel : Option String) : Entry :=
  { e with
    image_local_abs := none
    image_local_rel := none
    image_payload_offset := some off
    image_payload_length := some len
    image_payload_sha256 := some sha
    content_image_local_path := rel }

/-- An entry with the scratch keys popped and no image reference. -/
def withoutImageRef (e : Entry) : Entry :=
  { e with
    image_local_abs := none
    image_local_rel := none }

/-- The loop of `attach_image_payload(entries, key_seed, …)`: the image
encoder (`compress_image_to_jpeg_bytes`, the external `sips` call) is
the collaborator `imageEncode` (`none` or an empty byte string is a
failure); per-path and per-digest caches deduplicate chunks; the
accumulators are the payload built so far, the path cache, the digest
cache and the `with_image_ref` count. -/
def attachGo (compress decompress : List Nat → List Nat) (key_seed : String)
    (imageEncode : String → Option (List Nat)) :
    List Entry → List Nat → List (String × List Nat × String) →
    List (String × Nat × Nat) → Nat →
    Except String (List Entry × List Nat × Nat)
  | [], payload, _, _, cnt => Except.ok ([], payload, cnt)
  | e :: rest, payload, cacheByPath, byHash, cnt =>
    let abs? := match e.image_local_abs with
      | some s => if Py.strip s = "" then none else some (Py.strip s)
      | none => none
    let rel? := match e.image_local_rel with
      | some s => if Py.strip s = "" then none else some (Py.strip s)
      | none => none
    match abs? with
    | none => do
      let (es, payload2, cnt2) ←
        attachGo compress decompress key_seed imageEncode rest payload
          cacheByPath byHash cnt
      Except.ok (withoutImageRef e :: es, payload2, cnt2)
    | some abs2 =>
      match cacheByPath.lookup abs2 with
      | some (chunk, sha) =>
        match byHash.lookup sha with
        | some (off, len) => do
          let (es, payload2, cnt2) ←
            attachGo compress decompress key_seed imageEncode rest payload
              cacheByPath byHash (cnt + 1)
          Except.ok (withImageRef e off len sha rel? :: es, payload2, cnt2)
        | none => do
          let off := payload.length
          let (es, payload2, cnt2) ←
            attachGo compress decompress key_seed imageEncode rest
              (payload ++ chunk) cacheByPath ((sha, off, chunk.length) :: byHash)
              (cnt + 1)
          Except.ok (withImageRef e off chunk.length sha rel? :: es, payload2, cnt2)
      | none =>
        match imageEncode abs2 with
        | none => do
          let (es, payload2, cnt2) ←
            attachGo compress decompress key_seed imageEncode rest payload
              cacheByPath byHash cnt
          Except.ok (withoutImageRef e :: es, payload2, cnt2)
        | some [] => do
          let (es, payload2, cnt2) ←
            attachGo compress decompress key_seed imageEncode rest payload
              cacheByPath byHash cnt
          Except.ok (withoutImageRef e :: es, payload2, cnt2)
        | some bytes => do
          let (chunk, sha) ←
            build_binary_payload_bytes compress decompress bytes key_seed
          let cacheByPath2 := (abs2, chunk, sha) :: cacheByPath
          match byHash.lookup sha with
          | some (off, len) => do
            let (es, payload2, cnt2) ←
              attachGo compress decompress key_seed imageEncode rest payload
                cacheByPath2 byHash (cnt + 1)
            Except.ok (withImageRef e off len sha rel? :: es, payload2, cnt2)
          | none => do
            let off := payload.length
            let (es, payload2, cnt2) ←
              attachGo compress decompress key_seed imageEncode rest
                (payload ++ chunk) cacheByPath2 ((sha, off, chunk.length) :: byHash)
                (cnt + 1)
            Except.ok (withImageRef e off chunk.length sha rel? :: es, payload2, cnt2)

/-- `attach_image_payload`: the loop over the (already sorted) entries,
returning the rewritten entries, the image payload bytes and the
`with_image_ref` count the index reports as `entry_count`. -/
def attach_image_payload (compress decompress : List Nat → List Nat)
    (key_seed : String) (imageEncode : String → Option (List Nat))
    (entries : List Entry) : Except String (List Entry × List Nat × Nat) :=
  attachGo compress decompress key_seed imageEncode entries [] [] [] 0

/-- `nonempty(e.get(k))` truthiness on an entry field. -/
def optNonempty (v : Option String) : Bool :=
  match v with
  | some s => Py.strip s ≠ ""
  | none => false

/-- `count_by_category(entries)`. -/
def count_by_category (entries : List Entry) : Jv :=
  Jv.jobj
    [("hanabi", Jv.jint (entries.filter (fun e => e.category = "hanabi")).length),
     ("matsuri", Jv.jint (entries.filter (fun e => e.category = "matsuri")).length),
     ("total", Jv.jint entries.length)]

/-- `count_content_fields(entries)`. -/
def count_content_fields (entries : List Entry) : Jv :=
  Jv.jobj
    [("with_description", Jv.jint
       (entries.filter (fun e => optNonempty e.content_description)).length),
     ("with_one_liner", Jv.jint
       (entries.filter (fun e => optNonempty e.content_one_liner)).length),
     ("with_description_zh", Jv.jint
       (entries.filter (fun e => optNonempty e.content_description_zh)).length),
     ("with_one_liner_zh", Jv.jint
       (entries.filter (fun e => optNonempty e.content_one_liner_zh)).length),
     ("with_description_en", Jv.jint
       (entries.filter (fun e => optNonempty e.content_description_en)).length),
     ("with_one_liner_en", Jv.jint
       (entries.filter (fun e => optNonempty e.content_one_liner_en)).length),
     ("with_source_urls", Jv.jint
       (entries.filter (fun e =>
         !(e.content_source_urls.filterMap (fun s =>
           let t := Py.strip s
           if t = "" then none else some t)).isEmpty)).length),
     ("with_image_ref", Jv.jint
       (entries.filter (fun e =>
         e.image_payload_offset.isSome &&
           decide (0 < e.image_payload_length.getD 0))).length)]

/-- The frozen per-run inputs of the export stage that are not derived
from the rows: run ids and output file names. -/
structure ExportArgs where
  geohash_precision : Nat
  key : String
  payload_file : String
  image_payload_file : String
  image_max_px : Int
  image_quality : Int
  hanabi_run_id : String
  omatsuri_run_id : String
  hanabi_content_runs : List String
  omatsuri_content_runs : List String
  hanabi_score_runs : List String
  omatsuri_score_runs : List String

/-- `index_doc` of `main` (lines 977-1017), with `generated_at` as the
argument `now` (`datetime.now(timezone.utc).isoformat()` is read there
and used nowhere else). -/
def indexDoc (args : ExportArgs) (entries : List Entry)
    (bucket_meta : List (String × BucketMeta)) (payload image_payload : List Nat)
    (with_image_ref : Nat) (now : String) : Jv :=
  Jv.jobj
    [("version", Jv.jint 4),
     ("generated_at", Jv.jstr now),
     ("codec", Jv.jobj
       [("compression", Jv.jstr "zlib"),
        ("obfuscation", Jv.jstr "xor_sha256_stream_v1"),
        ("encoding", Jv.jstr "binary_frame_v1"),
        ("charset", Jv.jstr "utf-8")]),
     ("source_runs", Jv.jobj
       [("hanabi_fused_run_id", Jv.jstr args.hanabi_run_id),
        ("omatsuri_fused_run_id", Jv.jstr args.omatsuri_run_id),
        ("hanabi_content_runs", Jv.jarr (args.hanabi_content_runs.map Jv.jstr)),
        ("omatsuri_content_runs", Jv.jarr (args.omatsuri_content_runs.map Jv.jstr)),
        ("hanabi_score_runs", Jv.jarr (args.hanabi_score_runs.map Jv.jstr)),
        ("omatsuri_score_runs", Jv.jarr (args.omatsuri_score_runs.map Jv.jstr))]),
     ("record_counts", count_by_category entries),
     ("content_counts", count_content_fields entries),
     ("spatial_index", Jv.jobj
       [("scheme", Jv.jstr "geohash_prefix_v1"),
        ("precision", Jv.jint args.geohash_precision),
        ("bucket_count", Jv.jint bucket_meta.length)]),
     ("payload_file", Jv.jstr args.payload_file),
     ("payload_sha256", Jv.jstr (sha256hex payload)),
     ("payload_size_bytes", Jv.jint payload.length),
     ("payload_buckets", Jv.jobj (bucket_meta.map (fun p =>
       (p.1, Jv.jobj
         [("record_count", Jv.jint p.2.record_count),
          ("payload_sha256", Jv.jstr p.2.payload_sha256),
          ("payload_offset", Jv.jint p.2.payload_offset),
          ("payload_length", Jv.jint p.2.payload_length)])))),
     ("image_payload", Jv.jobj
       [("file", Jv.jstr args.image_payload_file),
        ("sha256", Jv.jstr (sha256hex image_payload)),
        ("size_bytes", Jv.jint image_payload.length),
        ("entry_count", Jv.jint with_image_ref),
        ("codec", Jv.jobj
          [("compression", Jv.jstr "zlib"),
           ("obfuscation", Jv.jstr "xor_sha256_stream_v1"),
           ("encoding", Jv.jstr "binary_frame_v1"),
           ("image_format", Jv.jstr "jpeg"),
           ("max_px", Jv.jint (max 200 args.image_max_px)),
           ("quality", Jv.jint (Scores.clamp args.image_quality 1 100))])])]

/-- The entry-construction loop of `main`: hanabi rows then omatsuri
rows, each fused row with its resolved content and score rows (pure
functions of the frozen input files), with one `uuid.uuid4()` stream
`uuidGen` for the fallback draws. -/
def buildEntries (imgResolve : String → Option String) (uuidGen : Nat → String)
    (geohash_precision : Nat)
    (hanabi_rows matsuri_rows : List (Row × Option Row × Option Row)) :
    List Entry :=
  ((hanabi_rows.map (fun t => ("hanabi", t)) ++
    matsuri_rows.map (fun t => ("matsuri", t))).enum.map (fun p =>
    build_entry p.2.1 p.2.2.1 geohash_precision p.2.2.2.1 p.2.2.2.2
      imgResolve (uuidGen p.1)))

/-- `main` after the entries are built: sort by `ios_place_id`, attach
the image payload, build the spatial payload, assemble the index
document (a function of the `generated_at` timestamp).  Returns
`(payload.bin bytes, images.payload.bin bytes, index.json document)`. -/
def exportCore (compress decompress : List Nat → List Nat)
    (imageEncode : String → Option (List Nat)) (args : ExportArgs)
    (entries1 : List Entry) :
    Except String (List Nat × List Nat × (String → Jv)) := do
  let entries2 := sortByPlaceId entries1
  let (entries3, image_payload, with_image_ref) ←
    attach_image_payload compress decompress args.key imageEncode entries2
  let (bucket_meta, payload) ←
    build_spatial_payload compress decompress entries3 args.key
  Except.ok (payload, image_payload,
    fun now => indexDoc args entries3 bucket_meta payload image_payload
      with_image_ref now)

/-- The export stage on a frozen input set: entry construction then
`exportCore`. -/
def exportBundle (compress decompress : List Nat → List Nat)
    (imageEncode : String → Option (List Nat))
    (imgResolve : String → Option String) (uuidGen : Nat → String)
    (args : ExportArgs)
    (hanabi_rows matsuri_rows : List (Row × Option Row × Option Row)) :
    Except String (List Nat × List Nat × (String → Jv)) :=
  exportCore compress decompress imageEncode args
    (buildEntries imgResolve uuidGen args.geohash_precision hanabi_rows matsuri_rows)

/-- Spec-side (C8): the index document with its top-level
`generated_at` key removed. -/
def stripGeneratedAt : Jv → Jv
  | Jv.jobj l => Jv.jobj (l.filter (fun p => p.1 ≠ "generated_at"))
  | v => v

/-- Spec-side (C8): top-level key lookup in a JSON object. -/
def Jv.getKey : Jv → String → Option Jv
  | Jv.jobj l, k => Row.get l k
  | _, _ => none

end Export
namespace Export

/-- The `payload.bin` bytes of a successful export. -/
def exportPayload :
    Except String (List Nat × List Nat × (String → Jv)) → Option (List Nat)
  | Except.ok t => some t.1
  | Except.error _ => none

/-- A frozen one-row input whose fused row has no `canonical_id`. -/
def rowCx : Row := []

/-- Frozen export arguments for the C8 instances. -/
def argsCx : ExportArgs :=
  ⟨5, "tsugie-ios-seed-v1", "he_places.payload.bin", "he_images.payload.bin",
   1280, 68, "r1", "r2", [], [], [], []⟩

set_option maxRecDepth 4000 in
theorem build_entry_uuid_irrelevant (category : String) (row : Row)
    (p : Nat) (crow srow : Option Row) (ir : String → Option String)
    (u1 u2 : String)
    (h : ¬ Py.strip (pyStr (jvOrEmpty (Row.get row "canonical_id"))) = "") :
    build_entry category row p crow srow ir u1 =
      build_entry category row p crow srow ir u2 := by
  simp only [build_entry]
  rw [if_neg h, if_neg h]

end Export

namespace Export

theorem buildEntries_uuid_irrelevant (imgResolve : String → Option String)
    (g1 g2 : Nat → String) (precision : Nat)
    (hanabi_rows matsuri_rows : List (Row × Option Row × Option Row))
    (hids : ∀ t ∈ hanabi_rows ++ matsuri_rows,
      ¬ Py.strip (pyStr (jvOrEmpty (Row.get t.1 "canonical_id"))) = "") :
    buildEntries imgResolve g1 precision hanabi_rows matsuri_rows =
      buildEntries imgResolve g2 precision hanabi_rows matsuri_rows := by
  unfold buildEntries
  refine List.map_eq_map_iff.mpr ?_
  intro p hp
  have hmem := List.snd_mem_of_mem_enum hp
  rcases List.mem_append.mp hmem with hmem | hmem
  · obtain ⟨t, ht, heq⟩ := List.mem_map.mp hmem
    refine build_entry_uuid_irrelevant _ _ _ _ _ _ _ _ ?_
    have := hids t (List.mem_append_left _ ht)
    rw [← heq]
    exact this
  · obtain ⟨t, ht, heq⟩ := List.mem_map.mp hmem
    refine build_entry_uuid_irrelevant _ _ _ _ _ _ _ _ ?_
    have := hids t (List.mem_append_right _ ht)
    rw [← heq]
    exact this

/-- C8 (amended): with every fused row carrying a nonempty
`canonical_id` the export is a pure function of the frozen input —
the internal `uuid.uuid4()` stream is never consulted, so two
invocations with the same key produce identical `payload.bin` and
`images.payload.bin` bytes and identical index documents; and however
the uuid stream falls, the index document depends on the invocation
time only through its top-level `generated_at` field (the
counterexample shows the nonempty-`canonical_id` hypothesis cannot be
dropped). -/
theorem C8_export_determinism_amended
    (compress decompress : List Nat → List Nat)
    (imageEncode : String → Option (List Nat))
    (imgResolve : String → Option String) (g1 g2 : Nat → String)
    (args : ExportArgs)
    (hanabi_rows matsuri_rows : List (Row × Option Row × Option Row))
    (hids : ∀ t ∈ hanabi_rows ++ matsuri_rows,
      ¬ Py.strip (pyStr (jvOrEmpty (Row.get t.1 "canonical_id"))) = "") :
    exportBundle compress decompress imageEncode imgResolve g1 args
        hanabi_rows matsuri_rows =
      exportBundle compress decompress imageEncode imgResolve g2 args
        hanabi_rows matsuri_rows ∧
    (∀ payload image_payload idx,
      exportBundle compress decompress imageEncode imgResolve g1 args
          hanabi_rows matsuri_rows =
        Except.ok (payload, image_payload, idx) →
      (∀ now1 now2, stripGeneratedAt (idx now1) = stripGeneratedAt (idx now2)) ∧
      (∀ now, (idx now).getKey "generated_at" = some (Jv.jstr now))) := by
  constructor
  · show exportCore compress decompress imageEncode args _ =
      exportCore compress decompress imageEncode args _
    exact congrArg _ (buildEntries_uuid_irrelevant imgResolve g1 g2
      args.geohash_precision hanabi_rows matsuri_rows hids)
  · intro payload image_payload idx hok
    rw [exportBundle, exportCore] at hok
    rcases hatt : attach_image_payload compress decompress args.key imageEncode
        (sortByPlaceId (buildEntries imgResolve g1 args.geohash_precision
          hanabi_rows matsuri_rows)) with err | ⟨entries3, ip0, cnt⟩
    · rw [hatt] at hok
      simp only [bind, Except.bind] at hok
      simp at hok
    · rw [hatt] at hok
      simp only [bind, Except.bind] at hok
      rcases hsp : build_spatial_payload compress decompress entries3 args.key
        with err | ⟨meta, pl⟩
      · rw [hsp] at hok
        simp only [bind, Except.bind] at hok
        simp at hok
      · rw [hsp] at hok
        simp only [bind, Except.bind, Except.ok.injEq] at hok
        obtain ⟨h1, h2, h3⟩ : pl = payload ∧ ip0 = image_payload ∧
            (fun now => indexDoc args entries3 meta pl ip0 cnt now) = idx := by
          simpa [Prod.ext_iff] using hok
        subst h1
        subst h2
        rw [← h3]
        constructor
        · intro now1 now2
          rfl
        · intro now
          rfl

end Export

namespace Export

/-- A frozen one-row input whose fused row carries a `canonical_id`. -/
def rowCx2 : Row := [("canonical_id", Jv.jstr "c1")]

set_option maxRecDepth 200000 in
set_option maxHeartbeats 16000000 in
/-- Counterexample to C8 as stated: on a frozen input whose single
fused row has no `canonical_id`, `build_entry` falls back to
`uuid.uuid4()` (line 616), so two invocations of the export stage with
the same key — identical in everything except the uuid draws the
program makes internally — produce different `payload.bin` bytes. -/
theorem C8_export_determinism_counterexample :
    (exportPayload (exportBundle id id (fun _ => none) (fun _ => none)
      (fun _ => "u1") argsCx [(rowCx, none, none)] [])).isSome ∧
    (exportPayload (exportBundle id id (fun _ => none) (fun _ => none)
      (fun _ => "u2") argsCx [(rowCx, none, none)] [])).isSome ∧
    exportPayload (exportBundle id id (fun _ => none) (fun _ => none)
        (fun _ => "u1") argsCx [(rowCx, none, none)] []) ≠
      exportPayload (exportBundle id id (fun _ => none) (fun _ => none)
        (fun _ => "u2") argsCx [(rowCx, none, none)] []) := by
  decide

/-- C8 amended theorem at a concrete frozen input with a nonempty
`canonical_id`: the two invocations differ in their uuid streams yet
produce equal outputs. -/
theorem C8_export_determinism_amended_witness :
    exportBundle id id (fun _ => none) (fun _ => none) (fun _ => "u1")
      argsCx [(rowCx2, none, none)] [] =
    exportBundle id id (fun _ => none) (fun _ => none) (fun _ => "u2")
      argsCx [(rowCx2, none, none)] [] :=
  (C8_export_determinism_amended id id (fun _ => none) (fun _ => none)
    (fun _ => "u1") (fun _ => "u2") argsCx [(rowCx2, none, none)] []
    (by decide)).1

end Export

end Tsugie
